import Mathlib

/-!
# Verification of the `_pyrite` corpus-integrity tooling

Shallow embedding, in Lean 4, of the parts of the repository that the
claims under scrutiny are about:

* `tools/id-generator/generate.py` — identifier generation, parsing and
  validation (`generate_id`, `validate_id`, the `PATTERNS` regexes and the
  `_parse_*` helpers);
* `tools/obsidian-linter/validate.py` — the corpus index
  (`_index_markdown_files`) and the broken-wikilink check
  (`_check_broken_wikilinks`);
* `tools/naming-linter/rules/work_efforts.py` — ticket-directory
  validation (`_validate_tickets_dir`) and fix application (`apply_fixes`);
* `tools/obsidian-linter/check.py` — the linter (`lint_file`, `lint_all`,
  the per-category checks) and its CLI entry (`main`);
* `tools/obsidian-linter/fix-obsidian-links.py` and
  `tools/obsidian-linter/fix-all.py` — the auto-fixers.

Python strings are modelled as `List Char`; the anchored regular
expressions of the sources are modelled by explicit character-level
matchers; `datetime.now()` and `random` are modelled by explicit
parameters constrained exactly as the library guarantees (a real calendar
date, four lowercase alphanumeric characters).  Filesystem state, where a
claim needs it, is an explicit finite map from path to content.
-/

namespace Pyrite

/-! ## Character classes and basic string utilities -/

/-- `\d` of the source regexes. -/
def isDigitCh (c : Char) : Bool := '0' ≤ c && c ≤ '9'

/-- `[a-z0-9]` of the source regexes (lowercase base-36 suffix alphabet). -/
def isLowerAlnum (c : Char) : Bool := ('a' ≤ c && c ≤ 'z') || isDigitCh c

/-- `\w` of Python's `re` (ASCII subset relevant to this corpus). -/
def isWordCh (c : Char) : Bool :=
  ('a' ≤ c && c ≤ 'z') || ('A' ≤ c && c ≤ 'Z') || isDigitCh c || c = '_'

/-- `\s` of Python's `re` / `str.strip` whitespace set. -/
def isSpaceCh (c : Char) : Bool :=
  c = ' ' || c = '\t' || c = '\n' || c = '\r' || c = '\x0b' || c = '\x0c'

/-- Shorthand turning a Lean string literal into the `List Char` model. -/
def str (s : String) : List Char := s.data

/-- Value of a digit character (`c.toNat - 48`, as Python's `int()` would). -/
def digitVal (c : Char) : Nat := c.toNat - 48

/-- Numeric value of a digit string, most significant first. -/
def digitsToNat (cs : List Char) : Nat := cs.foldl (fun acc c => 10 * acc + digitVal c) 0

/-- `%02d` for values below 100 (the only values the source formats this way:
`strftime('%y')`, `'%m'`, `'%d'`, `'%H'`, `'%M')`. -/
def pad2 (n : Nat) : List Char := [Nat.digitChar (n / 10), Nat.digitChar (n % 10)]

/-- `%Y` for four-digit years. -/
def pad4 (n : Nat) : List Char :=
  [Nat.digitChar (n / 1000), Nat.digitChar (n / 100 % 10),
   Nat.digitChar (n / 10 % 10), Nat.digitChar (n % 10)]

/-- `%03d` for values below 1000; for larger values `%03d` prints every digit,
which `Nat.toDigits` reproduces. -/
def format3 (n : Nat) : List Char :=
  if n ≤ 999 then [Nat.digitChar (n / 100), Nat.digitChar (n / 10 % 10), Nat.digitChar (n % 10)]
  else Nat.toDigits 10 n

/-! ## Anchored regex matchers of `tools/id-generator/generate.py`

`PATTERNS = { 'work_effort': r'^WE-(\d{6})-([a-z0-9]{4})$',
              'ticket':      r'^TKT-([a-z0-9]{4})-(\d{3})$',
              'checkpoint':  r'^CKPT-(\d{6})-(\d{4})$' }`
used via `re.match`, so matching is anchored at the start, and `$` accepts
either the end of the string or a position just before a final newline. -/

/-- Consume a literal from the front. -/
def dropLit : List Char → List Char → Option (List Char)
  | [], rest => some rest
  | c :: cs, d :: rest => if c = d then dropLit cs rest else none
  | _ :: _, [] => none

/-- Consume exactly `n` characters satisfying `p`, returning them and the rest. -/
def takeCount (p : Char → Bool) : Nat → List Char → Option (List Char × List Char)
  | 0, rest => some ([], rest)
  | n + 1, c :: rest =>
      if p c then (takeCount p n rest).map (fun g => (c :: g.1, g.2)) else none
  | _ + 1, [] => none

/-- Python's `$`: end of string, or just before a terminating newline. -/
def atEnd : List Char → Bool
  | [] => true
  | ['\n'] => true
  | _ => false

/-- `re.match(PATTERNS['work_effort'], s)`: the two capture groups. -/
def matchWorkEffort (s : List Char) : Option (List Char × List Char) := do
  let r ← dropLit (str "WE-") s
  let (ds, r) ← takeCount isDigitCh 6 r
  let r ← dropLit ['-'] r
  let (sfx, r) ← takeCount isLowerAlnum 4 r
  if atEnd r then some (ds, sfx) else none

/-- `re.match(PATTERNS['ticket'], s)`: the two capture groups. -/
def matchTicket (s : List Char) : Option (List Char × List Char) := do
  let r ← dropLit (str "TKT-") s
  let (sfx, r) ← takeCount isLowerAlnum 4 r
  let r ← dropLit ['-'] r
  let (num, r) ← takeCount isDigitCh 3 r
  if atEnd r then some (sfx, num) else none

/-- `re.match(PATTERNS['checkpoint'], s)`: the two capture groups. -/
def matchCheckpoint (s : List Char) : Option (List Char × List Char) := do
  let r ← dropLit (str "CKPT-") s
  let (ds, r) ← takeCount isDigitCh 6 r
  let r ← dropLit ['-'] r
  let (ts, r) ← takeCount isDigitCh 4 r
  if atEnd r then some (ds, ts) else none

/-! ## Calendar arithmetic of `datetime.strptime`

`_parse_work_effort` calls `datetime.strptime(date_str, '%y%m%d')`; `%y`
maps `00–68` to `2000–2068` and `69–99` to `1969–1999`, and the parse
raises `ValueError` unless month and day form a real calendar date. -/

def pivotYear (yy : Nat) : Nat := if yy ≤ 68 then 2000 + yy else 1900 + yy

def isLeapYear (y : Nat) : Bool := (y % 4 == 0 && y % 100 != 0) || y % 400 == 0

def daysInMonth (y m : Nat) : Nat :=
  if m = 2 then (if isLeapYear y then 29 else 28)
  else if m = 4 || m = 6 || m = 9 || m = 11 then 30
  else 31

/-- Whether six date digits survive `strptime(·, '%y%m%d')`. -/
def validYMD (ds : List Char) : Bool :=
  let yy := digitsToNat (ds.take 2)
  let mm := digitsToNat ((ds.drop 2).take 2)
  let dd := digitsToNat (ds.drop 4)
  1 ≤ mm && mm ≤ 12 && 1 ≤ dd && dd ≤ daysInMonth (pivotYear yy) mm

/-- Whether four time digits survive `strptime(·, '%H%M')`. -/
def validHM (ts : List Char) : Bool :=
  digitsToNat (ts.take 2) ≤ 23 && digitsToNat (ts.drop 2) ≤ 59

/-- `strftime('%Y-%m-%d')` of the date parsed from six digits. -/
def isoDate (ds : List Char) : List Char :=
  pad4 (pivotYear (digitsToNat (ds.take 2))) ++ ['-']
    ++ pad2 (digitsToNat ((ds.drop 2).take 2)) ++ ['-'] ++ pad2 (digitsToNat (ds.drop 4))

/-- `strftime('%H:%M')` of the time parsed from four digits. -/
def colonTime (ts : List Char) : List Char :=
  pad2 (digitsToNat (ts.take 2)) ++ [':'] ++ pad2 (digitsToNat (ts.drop 2))

/-! ## `validate_id` -/

/-- The dictionary `validate_id` returns, one optional field per key any of
the three `_parse_*` helpers can contribute. -/
structure IdResult where
  valid : Bool
  type? : Option (List Char)
  id : List Char
  date? : Option (List Char) := none
  suffix? : Option (List Char) := none
  folderPattern? : Option (List Char) := none
  parentSuffix? : Option (List Char) := none
  number? : Option Nat := none
  parentPattern? : Option (List Char) := none
  time? : Option (List Char) := none
  datetime? : Option (List Char) := none
  deriving Repr, DecidableEq

/-- `_parse_work_effort`. -/
def parseWorkEffortMatch (s ds sfx : List Char) : IdResult :=
  { valid := true, type? := some (str "work_effort"), id := s
    date? := if validYMD ds then some (isoDate ds) else none
    suffix? := some sfx
    folderPattern? := some (str "WE-" ++ ds ++ ['-'] ++ sfx ++ str "_*") }

/-- `_parse_ticket`. -/
def parseTicketMatch (s sfx num : List Char) : IdResult :=
  { valid := true, type? := some (str "ticket"), id := s
    parentSuffix? := some sfx
    number? := some (digitsToNat num)
    parentPattern? := some (str "WE-*-" ++ sfx) }

/-- `_parse_checkpoint` (`strptime('%y%m%d%H%M')` succeeds only if both the
date and the time parts are valid). -/
def parseCheckpointMatch (s ds ts : List Char) : IdResult :=
  if validYMD ds && validHM ts then
    { valid := true, type? := some (str "checkpoint"), id := s
      date? := some (isoDate ds)
      time? := some (colonTime ts)
      datetime? := some (isoDate ds ++ ['T'] ++ colonTime ts ++ str ":00") }
  else
    { valid := true, type? := some (str "checkpoint"), id := s }

/-- `validate_id`: try each grammar in the fixed order work-effort, ticket,
checkpoint, and return the first match's parse. -/
def validateId (s : List Char) : IdResult :=
  match matchWorkEffort s with
  | some (ds, sfx) => parseWorkEffortMatch s ds sfx
  | none =>
    match matchTicket s with
    | some (sfx, num) => parseTicketMatch s sfx num
    | none =>
      match matchCheckpoint s with
      | some (ds, ts) => parseCheckpointMatch s ds ts
      | none => { valid := false, type? := none, id := s }

/-! ## `generate_id`

`datetime.now()` is modelled by explicit `yy mm dd` (and `hh mi`)
parameters; `_random_suffix(4)` by an explicit `sfx` parameter.  The
library guarantees the parameters satisfy: the date is a real calendar
date, the suffix is four characters drawn from `[a-z0-9]`. -/

/-- `_generate_work_effort_id`: `WE-<strftime %y%m%d>-<suffix>`. -/
def generateWorkEffortId (yy mm dd : Nat) (sfx : List Char) : List Char :=
  str "WE-" ++ pad2 yy ++ pad2 mm ++ pad2 dd ++ ['-'] ++ sfx

/-- `_generate_ticket_id` with an explicit parent: the suffix is extracted
from the parent via the work-effort pattern (raising = `none` if the parent
does not match), then `TKT-{suffix}-{number:03d}`. -/
def generateTicketIdFromParent (parent : List Char) (number : Nat) : Option (List Char) :=
  (matchWorkEffort parent).map fun g => str "TKT-" ++ g.2 ++ ['-'] ++ format3 number

/-- `_generate_ticket_id` without a parent: a fresh `_random_suffix(4)`. -/
def generateTicketIdFresh (sfx : List Char) (number : Nat) : List Char :=
  str "TKT-" ++ sfx ++ ['-'] ++ format3 number

/-- `_generate_checkpoint_id`: `CKPT-<%y%m%d>-<%H%M>`. -/
def generateCheckpointId (yy mm dd hh mi : Nat) : List Char :=
  str "CKPT-" ++ pad2 yy ++ pad2 mm ++ pad2 dd ++ ['-'] ++ pad2 hh ++ pad2 mi

/-- What `_random_suffix(4)` guarantees about its output. -/
def WfSuffix (sfx : List Char) : Prop :=
  sfx.length = 4 ∧ ∀ c ∈ sfx, isLowerAlnum c = true

/-- What `datetime.now()` guarantees about the date fields it formats,
restricted to the years `2000–2068` on which `%y` round-trips. -/
def NowDate (yy mm dd : Nat) : Prop :=
  yy ≤ 68 ∧ 1 ≤ mm ∧ mm ≤ 12 ∧ 1 ≤ dd ∧ dd ≤ daysInMonth (2000 + yy) mm

/-! ## Supporting lemmas for the identifier subsystem -/

theorem dropLit_pre (xs rest : List Char) : dropLit xs (xs ++ rest) = some rest := by
  induction xs with
  | nil => rfl
  | cons c cs ih => simp [dropLit, ih]

theorem takeCount_exact (p : Char → Bool) (xs rest : List Char)
    (h : ∀ c ∈ xs, p c = true) :
    takeCount p xs.length (xs ++ rest) = some (xs, rest) := by
  induction xs with
  | nil => rfl
  | cons c cs ih =>
      simp only [List.length_cons, List.cons_append, takeCount,
        h c (List.mem_cons_self c cs)]
      simp [ih fun d hd => h d (List.mem_cons_of_mem c hd)]

theorem digitVal_digitChar {d : Nat} (h : d < 10) : digitVal (Nat.digitChar d) = d := by
  interval_cases d <;> decide

theorem isDigitCh_digitChar {d : Nat} (h : d < 10) : isDigitCh (Nat.digitChar d) = true := by
  interval_cases d <;> decide

theorem pad2_digits {n : Nat} (h : n ≤ 99) : ∀ c ∈ pad2 n, isDigitCh c = true := by
  have h1 : n / 10 < 10 := by omega
  have h2 : n % 10 < 10 := Nat.mod_lt _ (by omega)
  intro c hc
  simp only [pad2, List.mem_cons, List.not_mem_nil, or_false] at hc
  rcases hc with rfl | rfl
  · exact isDigitCh_digitChar h1
  · exact isDigitCh_digitChar h2

theorem digitsToNat_pad2 {n : Nat} (h : n ≤ 99) : digitsToNat (pad2 n) = n := by
  have h1 : n / 10 < 10 := by omega
  have h2 : n % 10 < 10 := Nat.mod_lt _ (by omega)
  simp only [digitsToNat, pad2, List.foldl_cons, List.foldl_nil,
    digitVal_digitChar h1, digitVal_digitChar h2]
  omega

theorem pivotYear_now {yy : Nat} (h : yy ≤ 68) : pivotYear yy = 2000 + yy := by
  simp [pivotYear, h]

theorem daysInMonth_le (y m : Nat) : daysInMonth y m ≤ 31 := by
  unfold daysInMonth
  split <;> [split <;> omega; split <;> omega]

/-- The six digits `strftime('%y%m%d')` produces for a real current date
pass the `strptime` validity check. -/
theorem validYMD_now {yy mm dd : Nat} (h : NowDate yy mm dd) :
    validYMD (pad2 yy ++ (pad2 mm ++ pad2 dd)) = true := by
  obtain ⟨hy, hm1, hm2, hd1, hd2⟩ := h
  have hdd : dd ≤ 99 := le_trans hd2 (le_trans (daysInMonth_le _ _) (by omega))
  have t1 : (pad2 yy ++ (pad2 mm ++ pad2 dd)).take 2 = pad2 yy := rfl
  have t2 : ((pad2 yy ++ (pad2 mm ++ pad2 dd)).drop 2).take 2 = pad2 mm := rfl
  have t3 : (pad2 yy ++ (pad2 mm ++ pad2 dd)).drop 4 = pad2 dd := rfl
  simp only [validYMD, t1, t2, t3, digitsToNat_pad2 (by omega : yy ≤ 99),
    digitsToNat_pad2 (by omega : mm ≤ 99), digitsToNat_pad2 hdd,
    pivotYear_now hy]
  simp [hm1, hm2, hd1, hd2]

/-- Matching the generated work-effort shape against its own grammar. -/
theorem matchWorkEffort_gen (ds sfx : List Char)
    (hds : ds.length = 6) (hdig : ∀ c ∈ ds, isDigitCh c = true)
    (hsl : sfx.length = 4) (hsfx : ∀ c ∈ sfx, isLowerAlnum c = true) :
    matchWorkEffort (str "WE-" ++ (ds ++ '-' :: sfx)) = some (ds, sfx) := by
  have h1 := dropLit_pre (str "WE-") (ds ++ '-' :: sfx)
  have h2 : takeCount isDigitCh 6 (ds ++ '-' :: sfx) = some (ds, '-' :: sfx) := by
    rw [← hds]; exact takeCount_exact _ _ _ hdig
  have h3 : takeCount isLowerAlnum 4 sfx = some (sfx, []) := by
    rw [← hsl, ← List.append_nil sfx]
    simpa using takeCount_exact isLowerAlnum sfx [] hsfx
  simp [matchWorkEffort, h1, h2, dropLit, h3, atEnd]

/-- Matching the generated ticket shape against its own grammar. -/
theorem matchTicket_gen (sfx num : List Char)
    (hsl : sfx.length = 4) (hsfx : ∀ c ∈ sfx, isLowerAlnum c = true)
    (hnl : num.length = 3) (hnum : ∀ c ∈ num, isDigitCh c = true) :
    matchTicket (str "TKT-" ++ (sfx ++ '-' :: num)) = some (sfx, num) := by
  have h1 := dropLit_pre (str "TKT-") (sfx ++ '-' :: num)
  have h2 : takeCount isLowerAlnum 4 (sfx ++ '-' :: num) = some (sfx, '-' :: num) := by
    rw [← hsl]; exact takeCount_exact _ _ _ hsfx
  have h3 : takeCount isDigitCh 3 num = some (num, []) := by
    rw [← hnl, ← List.append_nil num]
    simpa using takeCount_exact isDigitCh num [] hnum
  simp [matchTicket, h1, h2, dropLit, h3, atEnd]

/-- Matching the generated checkpoint shape against its own grammar. -/
theorem matchCheckpoint_gen (ds ts : List Char)
    (hds : ds.length = 6) (hdig : ∀ c ∈ ds, isDigitCh c = true)
    (htl : ts.length = 4) (htim : ∀ c ∈ ts, isDigitCh c = true) :
    matchCheckpoint (str "CKPT-" ++ (ds ++ '-' :: ts)) = some (ds, ts) := by
  have h1 := dropLit_pre (str "CKPT-") (ds ++ '-' :: ts)
  have h2 : takeCount isDigitCh 6 (ds ++ '-' :: ts) = some (ds, '-' :: ts) := by
    rw [← hds]; exact takeCount_exact _ _ _ hdig
  have h3 : takeCount isDigitCh 4 ts = some (ts, []) := by
    rw [← htl, ← List.append_nil ts]
    simpa using takeCount_exact isDigitCh ts [] htim
  simp [matchCheckpoint, h1, h2, dropLit, h3, atEnd]

/-- The three grammars are distinguished by their first character, so an
input matched by one is rejected by the other two (making "first match in
a fixed order" unambiguous). -/
theorem matchers_head (s : List Char) :
    (matchWorkEffort s ≠ none → ∃ r, s = 'W' :: r) ∧
    (matchTicket s ≠ none → ∃ r, s = 'T' :: r) ∧
    (matchCheckpoint s ≠ none → ∃ r, s = 'C' :: r) := by
  match s with
  | [] => exact ⟨fun h => absurd rfl h, fun h => absurd rfl h, fun h => absurd rfl h⟩
  | c :: r =>
      refine ⟨fun h => ⟨r, ?_⟩, fun h => ⟨r, ?_⟩, fun h => ⟨r, ?_⟩⟩
      · by_cases hc : 'W' = c
        · rw [← hc]
        · exact absurd (by simp [matchWorkEffort, dropLit, hc]) h
      · by_cases hc : 'T' = c
        · rw [← hc]
        · exact absurd (by simp [matchTicket, dropLit, hc]) h
      · by_cases hc : 'C' = c
        · rw [← hc]
        · exact absurd (by simp [matchCheckpoint, dropLit, hc]) h

theorem matchTicket_W (r : List Char) : matchTicket ('W' :: r) = none := rfl
theorem matchCheckpoint_W (r : List Char) : matchCheckpoint ('W' :: r) = none := rfl
theorem matchWorkEffort_T (r : List Char) : matchWorkEffort ('T' :: r) = none := rfl
theorem matchCheckpoint_T (r : List Char) : matchCheckpoint ('T' :: r) = none := rfl
theorem matchWorkEffort_C (r : List Char) : matchWorkEffort ('C' :: r) = none := rfl
theorem matchTicket_C (r : List Char) : matchTicket ('C' :: r) = none := rfl

theorem validateId_of_we {s ds sfx : List Char} (h : matchWorkEffort s = some (ds, sfx)) :
    validateId s = parseWorkEffortMatch s ds sfx := by
  simp [validateId, h]

theorem validateId_of_ticket {s sfx num : List Char} (h : matchTicket s = some (sfx, num)) :
    validateId s = parseTicketMatch s sfx num := by
  obtain ⟨r, rfl⟩ := (matchers_head s).2.1 (by simp [h])
  simp [validateId, matchWorkEffort_T, h]

theorem validateId_of_ckpt {s ds ts : List Char} (h : matchCheckpoint s = some (ds, ts)) :
    validateId s = parseCheckpointMatch s ds ts := by
  obtain ⟨r, rfl⟩ := (matchers_head s).2.2 (by simp [h])
  simp [validateId, matchWorkEffort_C, matchTicket_C, h]

theorem format3_small {n : Nat} (h : n ≤ 999) :
    format3 n = [Nat.digitChar (n / 100), Nat.digitChar (n / 10 % 10), Nat.digitChar (n % 10)] := by
  simp [format3, h]

theorem format3_digits {n : Nat} (h : n ≤ 999) : ∀ c ∈ format3 n, isDigitCh c = true := by
  have h1 : n / 100 < 10 := by omega
  have h2 : n / 10 % 10 < 10 := Nat.mod_lt _ (by omega)
  have h3 : n % 10 < 10 := Nat.mod_lt _ (by omega)
  intro c hc
  rw [format3_small h] at hc
  simp only [List.mem_cons, List.not_mem_nil, or_false] at hc
  rcases hc with rfl | rfl | rfl
  · exact isDigitCh_digitChar h1
  · exact isDigitCh_digitChar h2
  · exact isDigitCh_digitChar h3

theorem digitsToNat_format3 {n : Nat} (h : n ≤ 999) : digitsToNat (format3 n) = n := by
  have h1 : n / 100 < 10 := by omega
  have h2 : n / 10 % 10 < 10 := Nat.mod_lt _ (by omega)
  have h3 : n % 10 < 10 := Nat.mod_lt _ (by omega)
  rw [format3_small h]
  simp only [digitsToNat, List.foldl_cons, List.foldl_nil,
    digitVal_digitChar h1, digitVal_digitChar h2, digitVal_digitChar h3]
  omega

theorem sixDigits {yy mm dd : Nat} (hy : yy ≤ 99) (hm : mm ≤ 99) (hd : dd ≤ 99) :
    ∀ c ∈ pad2 yy ++ (pad2 mm ++ pad2 dd), isDigitCh c = true := by
  intro c hc
  simp only [List.mem_append] at hc
  rcases hc with hc | hc | hc
  · exact pad2_digits hy c hc
  · exact pad2_digits hm c hc
  · exact pad2_digits hd c hc

theorem isoDate_now {yy mm dd : Nat} (h : NowDate yy mm dd) :
    isoDate (pad2 yy ++ (pad2 mm ++ pad2 dd))
      = pad4 (2000 + yy) ++ '-' :: (pad2 mm ++ '-' :: pad2 dd) := by
  obtain ⟨hy, _, hm2, _, hd2⟩ := h
  have hdd : dd ≤ 99 := le_trans hd2 (le_trans (daysInMonth_le _ _) (by omega))
  have t1 : (pad2 yy ++ (pad2 mm ++ pad2 dd)).take 2 = pad2 yy := rfl
  have t2 : ((pad2 yy ++ (pad2 mm ++ pad2 dd)).drop 2).take 2 = pad2 mm := rfl
  have t3 : (pad2 yy ++ (pad2 mm ++ pad2 dd)).drop 4 = pad2 dd := rfl
  simp [isoDate, t1, t2, t3, digitsToNat_pad2 (by omega : yy ≤ 99),
    digitsToNat_pad2 (by omega : mm ≤ 99), digitsToNat_pad2 hdd, pivotYear_now hy]

/-! ## Claim theorems: identifier subsystem -/

/-- C2 (counterexample): sequence number `1000` is accepted by
`_generate_ticket_id` (no validation is performed on `number`), producing
`TKT-abcd-1000`, but `validate_id` rejects that string — `%03d` emits four
digits while the ticket grammar demands exactly three — so
`parse(generate('ticket', parent, 1000))` does not recover the components;
the round trip fails. -/
theorem C2_counterexample :
    generateTicketIdFromParent (str "WE-260101-abcd") 1000 = some (str "TKT-abcd-1000") ∧
    (validateId (str "TKT-abcd-1000")).valid = false := by
  exact ⟨rfl, rfl⟩

/-- C2 (amended): for every parameter set accepted by generation *and
representable in the grammar* — a real current date in 2000–2068, a
four-character lowercase-alphanumeric suffix, and a ticket sequence number
of at most 999 — parsing the generated identifier succeeds with the same
kind and recovers exactly the generating components: the embedded date for
work efforts and checkpoints (as its ISO rendering), the suffix inherited
from the parent work effort (or the fresh suffix), and the sequence
number for tickets. -/
theorem C2_roundtrip :
    (∀ yy mm dd sfx, NowDate yy mm dd → WfSuffix sfx →
      validateId (generateWorkEffortId yy mm dd sfx) =
        { valid := true, type? := some (str "work_effort")
          id := generateWorkEffortId yy mm dd sfx
          date? := some (pad4 (2000 + yy) ++ '-' :: (pad2 mm ++ '-' :: pad2 dd))
          suffix? := some sfx
          folderPattern? := some (str "WE-" ++
            ((pad2 yy ++ (pad2 mm ++ pad2 dd)) ++ '-' :: (sfx ++ str "_*"))) }) ∧
    (∀ pd psfx n, pd.length = 6 → (∀ c ∈ pd, isDigitCh c = true) → WfSuffix psfx →
      n ≤ 999 →
      generateTicketIdFromParent (str "WE-" ++ (pd ++ '-' :: psfx)) n
          = some (generateTicketIdFresh psfx n) ∧
      validateId (generateTicketIdFresh psfx n) =
        { valid := true, type? := some (str "ticket")
          id := generateTicketIdFresh psfx n
          parentSuffix? := some psfx
          number? := some n
          parentPattern? := some (str "WE-*-" ++ psfx) }) ∧
    (∀ yy mm dd hh mi, NowDate yy mm dd → hh ≤ 23 → mi ≤ 59 →
      validateId (generateCheckpointId yy mm dd hh mi) =
        { valid := true, type? := some (str "checkpoint")
          id := generateCheckpointId yy mm dd hh mi
          date? := some (pad4 (2000 + yy) ++ '-' :: (pad2 mm ++ '-' :: pad2 dd))
          time? := some (pad2 hh ++ ':' :: pad2 mi)
          datetime? := some ((pad4 (2000 + yy) ++ '-' :: (pad2 mm ++ '-' :: pad2 dd))
            ++ 'T' :: ((pad2 hh ++ ':' :: pad2 mi) ++ str ":00")) }) := by
  refine ⟨?_, ?_, ?_⟩
  · intro yy mm dd sfx hnow hsfx
    obtain ⟨hy, hm1, hm2, hd1, hd2⟩ := hnow
    have hdd : dd ≤ 99 := le_trans hd2 (le_trans (daysInMonth_le _ _) (by omega))
    have hgen : generateWorkEffortId yy mm dd sfx
        = str "WE-" ++ ((pad2 yy ++ (pad2 mm ++ pad2 dd)) ++ '-' :: sfx) := by
      simp [generateWorkEffortId, List.append_assoc]
    have hmatch := matchWorkEffort_gen (pad2 yy ++ (pad2 mm ++ pad2 dd)) sfx rfl
      (sixDigits (by omega) (by omega) hdd) hsfx.1 hsfx.2
    rw [hgen, validateId_of_we hmatch]
    simp [parseWorkEffortMatch, validYMD_now ⟨hy, hm1, hm2, hd1, hd2⟩,
      isoDate_now ⟨hy, hm1, hm2, hd1, hd2⟩, List.append_assoc]
  · intro pd psfx n hpdl hpd hsfx hn
    have hmatchWE := matchWorkEffort_gen pd psfx hpdl hpd hsfx.1 hsfx.2
    have hfresh : generateTicketIdFresh psfx n = str "TKT-" ++ (psfx ++ '-' :: format3 n) := by
      simp [generateTicketIdFresh, List.append_assoc]
    have hmatchT := matchTicket_gen psfx (format3 n) hsfx.1 hsfx.2
      (by rw [format3_small hn]; rfl) (format3_digits hn)
    constructor
    · simp [generateTicketIdFromParent, hmatchWE, hfresh]
    · rw [hfresh, validateId_of_ticket hmatchT]
      simp [parseTicketMatch, digitsToNat_format3 hn]
  · intro yy mm dd hh mi hnow hhh hmi
    obtain ⟨hy, hm1, hm2, hd1, hd2⟩ := hnow
    have hdd : dd ≤ 99 := le_trans hd2 (le_trans (daysInMonth_le _ _) (by omega))
    have hgen : generateCheckpointId yy mm dd hh mi
        = str "CKPT-" ++ ((pad2 yy ++ (pad2 mm ++ pad2 dd)) ++ '-' :: (pad2 hh ++ pad2 mi)) := by
      simp [generateCheckpointId, List.append_assoc]
    have hmatch := matchCheckpoint_gen (pad2 yy ++ (pad2 mm ++ pad2 dd)) (pad2 hh ++ pad2 mi)
      rfl (sixDigits (by omega) (by omega) hdd) rfl
      (by
        intro c hc
        simp only [List.mem_append] at hc
        rcases hc with hc | hc
        · exact pad2_digits (by omega) c hc
        · exact pad2_digits (by omega) c hc)
    have hhm : validHM (pad2 hh ++ pad2 mi) = true := by
      have t1 : (pad2 hh ++ pad2 mi).take 2 = pad2 hh := rfl
      have t2 : (pad2 hh ++ pad2 mi).drop 2 = pad2 mi := rfl
      simp only [validHM, t1, t2, digitsToNat_pad2 (by omega : hh ≤ 99),
        digitsToNat_pad2 (by omega : mi ≤ 99)]
      simp [hhh, hmi]
    have hct : colonTime (pad2 hh ++ pad2 mi) = pad2 hh ++ ':' :: pad2 mi := by
      have t1 : (pad2 hh ++ pad2 mi).take 2 = pad2 hh := rfl
      have t2 : (pad2 hh ++ pad2 mi).drop 2 = pad2 mi := rfl
      simp [colonTime, t1, t2, digitsToNat_pad2 (by omega : hh ≤ 99),
        digitsToNat_pad2 (by omega : mi ≤ 99)]
    rw [hgen, validateId_of_ckpt hmatch]
    simp [parseCheckpointMatch, validYMD_now ⟨hy, hm1, hm2, hd1, hd2⟩, hhm,
      isoDate_now ⟨hy, hm1, hm2, hd1, hd2⟩, hct]

/-- C2 (witness): the round trip evaluated at the concrete date
2026-01-31, suffix `a1b2`, sequence 7, time 14:30. -/
theorem C2_roundtrip_witness :
    (validateId (generateWorkEffortId 26 1 31 (str "a1b2"))).suffix? = some (str "a1b2") ∧
    (validateId (generateWorkEffortId 26 1 31 (str "a1b2"))).date? = some (str "2026-01-31") ∧
    generateTicketIdFromParent (str "WE-260131-a1b2") 7 = some (str "TKT-a1b2-007") ∧
    (validateId (str "TKT-a1b2-007")).number? = some 7 ∧
    (validateId (str "TKT-a1b2-007")).parentSuffix? = some (str "a1b2") ∧
    (validateId (generateCheckpointId 26 1 31 14 30)).time? = some (str "14:30") := by
  have h1 := C2_roundtrip.1 26 1 31 (str "a1b2") (by constructor <;> decide) (by constructor <;> decide)
  have h2 := C2_roundtrip.2.1 (str "260131") (str "a1b2") 7 rfl (by decide)
    (by constructor <;> decide) (by decide)
  have h3 := C2_roundtrip.2.2 26 1 31 14 30 (by constructor <;> decide) (by decide) (by decide)
  refine ⟨?_, ?_, ?_, ?_, ?_, ?_⟩
  · rw [h1]
  · rw [h1]; rfl
  · have := h2.1; simpa using this
  · have := h2.2; rw [show str "TKT-a1b2-007" = generateTicketIdFresh (str "a1b2") 7 from rfl, this]
  · have := h2.2; rw [show str "TKT-a1b2-007" = generateTicketIdFresh (str "a1b2") 7 from rfl, this]
  · rw [h3]; rfl

/-- C7: `validate_id` tries the three grammars in the fixed order
work-effort, ticket, checkpoint and returns the first (and, the grammars
being disjoint by their leading characters, only) match's kind and
components; and an input whose six date digits do not form a valid
calendar date under `strptime` is never returned as a validly parsed
identifier *with* a parsed date — the grammar match is reported, but the
`date` component is `None`. -/
theorem C7_first_match_and_date :
    (∀ s ds sfx, matchWorkEffort s = some (ds, sfx) →
      validateId s = parseWorkEffortMatch s ds sfx ∧
        matchTicket s = none ∧ matchCheckpoint s = none) ∧
    (∀ s sfx num, matchTicket s = some (sfx, num) →
      validateId s = parseTicketMatch s sfx num ∧
        matchWorkEffort s = none ∧ matchCheckpoint s = none) ∧
    (∀ s ds ts, matchCheckpoint s = some (ds, ts) →
      validateId s = parseCheckpointMatch s ds ts ∧
        matchWorkEffort s = none ∧ matchTicket s = none) ∧
    (∀ s ds sfx, matchWorkEffort s = some (ds, sfx) → validYMD ds = false →
      ¬((validateId s).valid = true ∧ (validateId s).date?.isSome = true)) ∧
    (∀ s ds ts, matchCheckpoint s = some (ds, ts) → validYMD ds = false →
      ¬((validateId s).valid = true ∧ (validateId s).date?.isSome = true)) := by
  refine ⟨?_, ?_, ?_, ?_, ?_⟩
  · intro s ds sfx h
    obtain ⟨r, rfl⟩ := (matchers_head s).1 (by simp [h])
    exact ⟨validateId_of_we h, matchTicket_W r, matchCheckpoint_W r⟩
  · intro s sfx num h
    obtain ⟨r, rfl⟩ := (matchers_head s).2.1 (by simp [h])
    exact ⟨validateId_of_ticket h, matchWorkEffort_T r, matchCheckpoint_T r⟩
  · intro s ds ts h
    obtain ⟨r, rfl⟩ := (matchers_head s).2.2 (by simp [h])
    exact ⟨validateId_of_ckpt h, matchWorkEffort_C r, matchTicket_C r⟩
  · intro s ds sfx h hbad
    rw [validateId_of_we h]
    simp [parseWorkEffortMatch, hbad]
  · intro s ds ts h hbad
    rw [validateId_of_ckpt h]
    simp [parseCheckpointMatch, hbad]

/-- C7 (witness): evaluated at `WE-999999-abcd` (month 99 is no calendar
month: grammar match reported, no parsed date), and at `TKT-a1b2-001`
(matched by the second grammar only). -/
theorem C7_first_match_and_date_witness :
    (validateId (str "WE-999999-abcd")).date?.isSome = false ∧
    validateId (str "TKT-a1b2-001")
      = parseTicketMatch (str "TKT-a1b2-001") (str "a1b2") (str "001") ∧
    matchWorkEffort (str "TKT-a1b2-001") = none := by
  have h1 := C7_first_match_and_date.2.2.2.1 (str "WE-999999-abcd")
    (str "999999") (str "abcd") (by decide) (by decide)
  have h2 := C7_first_match_and_date.2.1 (str "TKT-a1b2-001") (str "a1b2") (str "001") (by decide)
  refine ⟨?_, h2.1, h2.2.1⟩
  cases hb : (validateId (str "WE-999999-abcd")).date?.isSome with
  | false => rfl
  | true => exact absurd ⟨by decide, hb⟩ h1

/-! ## Path and string utilities shared by the linter tools -/

/-- `str.split(sep)` for a one-character separator (Python semantics:
splitting the empty string yields `[""]`). -/
def splitOnCh (sep : Char) : List Char → List (List Char)
  | [] => [[]]
  | c :: rest =>
      let r := splitOnCh sep rest
      if c = sep then [] :: r
      else match r with
           | [] => [[c]]
           | h :: t => (c :: h) :: t

/-- Join with a one-character separator (inverse of `splitOnCh`). -/
def joinCh (sep : Char) : List (List Char) → List Char
  | [] => []
  | [p] => p
  | p :: rest => p ++ sep :: joinCh sep rest

/-- Index of the last occurrence of `c`, if any. -/
def lastIdxOf (c : Char) (l : List Char) : Option Nat :=
  ((l.enum.filter (fun ic => ic.2 = c)).getLast?).map (fun ic => ic.1)

/-- `pathlib.Path(...).name`: the final path component. -/
def fileNameOf (p : List Char) : List Char := (splitOnCh '/' p).getLastD []

/-- `pathlib.Path(...).parent` rendered as a string (for the paths this
corpus uses: at least one separator). -/
def parentOf (p : List Char) : List Char := joinCh '/' (splitOnCh '/' p).dropLast

/-- `pathlib.Path(...).stem`: the final component minus its last suffix
(a leading dot does not start a suffix). -/
def stemOf (p : List Char) : List Char :=
  let n := fileNameOf p
  match lastIdxOf '.' n with
  | none => n
  | some 0 => n
  | some i => n.take i

/-- `with_suffix('')` rendered as a string: parent components joined with
the stem. -/
def withSuffixEmpty (p : List Char) : List Char :=
  joinCh '/' ((splitOnCh '/' p).dropLast ++ [stemOf p])

/-- `str.strip()`: remove Python whitespace from both ends. -/
def trimPy (l : List Char) : List Char :=
  ((l.dropWhile isSpaceCh).reverse.dropWhile isSpaceCh).reverse

/-- `str.startswith`. -/
def startsWithStr (pre l : List Char) : Bool := l.take pre.length == pre

/-- `str.endswith`. -/
def endsWithStr (suf l : List Char) : Bool := l.drop (l.length - suf.length) == suf && suf.length ≤ l.length

/-- `'/' in s` and similar containment of a character. -/
def hasCh (c : Char) (l : List Char) : Bool := l.any (· = c)

/-- `sub in s` substring containment (Python `in`). -/
def hasSub (sub : List Char) : List Char → Bool
  | [] => sub.isEmpty
  | c :: rest => startsWithStr sub (c :: rest) || hasSub sub rest

/-! ## Bare-identifier scanners

`TICKET_ID_PATTERN = r'\bTKT-([a-z0-9]{4})-(\d{3})\b'` and
`WORK_EFFORT_ID_PATTERN = r'\bWE-(\d{6})-([a-z0-9]{4})\b'` are shared
verbatim by `check.py`, `fix-links.py` and `fix-all.py`.  `finditer` is
modelled by a scanner that carries the previous character (for `\b`) and
skips past each match; neither pattern can overlap itself, and both have
fixed match length (12 and 14 characters). -/

/-- `\b` before the match: start of string or a non-word character. -/
def wordBoundaryPrev : Option Char → Bool
  | none => true
  | some p => !isWordCh p

/-- `\b` after the match: end of string or a non-word character. -/
def endBoundary : List Char → Bool
  | [] => true
  | c :: _ => !isWordCh c

/-- Try `WE-(\d{6})-([a-z0-9]{4})\b` at the current position; `some 14` on
success. -/
def weIdTry (l : List Char) : Option Nat :=
  match dropLit (str "WE-") l with
  | none => none
  | some r1 =>
    match takeCount isDigitCh 6 r1 with
    | none => none
    | some (_, r2) =>
      match dropLit ['-'] r2 with
      | none => none
      | some r3 =>
        match takeCount isLowerAlnum 4 r3 with
        | none => none
        | some (_, r4) => if endBoundary r4 then some 14 else none

/-- Try `TKT-([a-z0-9]{4})-(\d{3})\b` at the current position; `some 12` on
success. -/
def tktIdTry (l : List Char) : Option Nat :=
  match dropLit (str "TKT-") l with
  | none => none
  | some r1 =>
    match takeCount isLowerAlnum 4 r1 with
    | none => none
    | some (_, r2) =>
      match dropLit ['-'] r2 with
      | none => none
      | some r3 =>
        match takeCount isDigitCh 3 r3 with
        | none => none
        | some (_, r4) => if endBoundary r4 then some 12 else none

/-- `finditer` driver: `(start, length)` spans of all matches, left to
right, resuming after each match (a positive `skip` records that the
scanner is still inside the previous match). -/
def reScanGo (tm : List Char → Option Nat) (prev : Option Char) (pos skip : Nat) :
    (l : List Char) → List (Nat × Nat)
  | [] => []
  | c :: rest =>
    match skip with
    | s + 1 => reScanGo tm (some c) (pos + 1) s rest
    | 0 =>
      match (if wordBoundaryPrev prev then tm (c :: rest) else none) with
      | some n => (pos, n) :: reScanGo tm (some c) (pos + 1) (n - 1) rest
      | none => reScanGo tm (some c) (pos + 1) 0 rest

/-- All `WORK_EFFORT_ID_PATTERN` match spans in `content`. -/
def weIdSpans (content : List Char) : List (Nat × Nat) := reScanGo weIdTry none 0 0 content

/-- All `TICKET_ID_PATTERN` match spans in `content`. -/
def tktIdSpans (content : List Char) : List (Nat × Nat) := reScanGo tktIdTry none 0 0 content

/-! ## Wikilink scanner

`WIKILINK_PATTERN = re.compile(r'\[\[([^\]]+?)\]\]')`, shared by
`validate.py`, `check.py`, `fix-links.py` and `fix-all.py`.  Because `]`
cannot occur in the group, the lazy group ends at the first `]`, which
must be followed by a second `]`; on failure the engine moves one
character to the right. -/

/-- Try `\[\[([^\]]+?)\]\]` at the current position: group and total
matched length. -/
def wikilinkTry (l : List Char) : Option (List Char × Nat) :=
  match l with
  | '[' :: '[' :: rest =>
      let grp := rest.takeWhile (· ≠ ']')
      if grp.isEmpty then none
      else match rest.drop grp.length with
           | ']' :: ']' :: _ => some (grp, grp.length + 4)
           | _ => none
  | _ => none

/-- All wikilink matches as `(start, group)` pairs (a positive `skip`
records that the scanner is still inside the previous match). -/
def wikilinkScanGo (pos skip : Nat) : (l : List Char) → List (Nat × List Char)
  | [] => []
  | c :: rest =>
    match skip with
    | s + 1 => wikilinkScanGo (pos + 1) s rest
    | 0 =>
      match wikilinkTry (c :: rest) with
      | some (grp, n) => (pos, grp) :: wikilinkScanGo (pos + 1) (n - 1) rest
      | none => wikilinkScanGo (pos + 1) 0 rest

/-- All wikilink matches of `WIKILINK_PATTERN.finditer`. -/
def wikilinkScan (content : List Char) : List (Nat × List Char) :=
  wikilinkScanGo 0 0 content

/-- `content[:pos].count('\n') + 1`, the 1-based line of an offset. -/
def lineOf (content : List Char) (pos : Nat) : Nat :=
  ((content.take pos).filter (· = '\n')).length + 1

/-- The ASCII apostrophe (several source messages quote values with it). -/
def apos : Char := Char.ofNat 39

/-! ## `tools/obsidian-linter/validate.py` — index and broken-wikilink check

A corpus is a list of `(relative path, content)` pairs for the `*.md`
files under the root; `root` is the absolute path of the root directory.
`ObsidianValidator._index_markdown_files` stores four string keys per
file: the stem, the relative path, the relative path without suffix, and
the relative path with `/` replaced by `_`. -/

/-- A `ValidationIssue` of `validate.py`. -/
structure VIssue where
  severity : List Char
  category : List Char
  filePath : List Char
  lineNum : Option Nat
  message : List Char
  suggestion : Option (List Char) := none
  deriving Repr, DecidableEq

/-- Skip hidden directories and files (`any(part.startswith('.'))`). -/
def visiblePath (rel : List Char) : Bool :=
  (splitOnCh '/' rel).all (fun part => !startsWithStr ['.'] part)

/-- The four lookup keys `_index_markdown_files` stores for one file. -/
def fileKeys (rel : List Char) : List (List Char) :=
  [stemOf rel, rel, withSuffixEmpty rel, rel.map (fun c => if c = '/' then '_' else c)]

/-- `markdown_files`: every key registered by the walk, with the owning
file (later registrations shadow earlier ones exactly as for a `dict`,
but the checks below only test key membership). -/
def buildIndex (files : List (List Char)) : List (List Char × List Char) :=
  (files.filter visiblePath).flatMap (fun rel => (fileKeys rel).map (fun k => (k, rel)))

/-- A candidate looked up in `markdown_files`: the first four candidates
are `str` keys, the relative-path fallbacks are `pathlib.Path` objects. -/
inductive PKey where
  | pstr (s : List Char)
  | ppath (s : List Char)
  deriving Repr, DecidableEq

/-- Python `==` between a lookup candidate and a `dict` key (always a
`str` here): a `Path` never equals a `str`, so `Path` candidates can
never hit. -/
def pkeyHits (k : PKey) (dictKey : List Char) : Bool :=
  match k with
  | .pstr s => s == dictKey
  | .ppath _ => false

/-- `path_key in self.markdown_files`. -/
def pkeyMem (k : PKey) (idx : List (List Char × List Char)) : Bool :=
  idx.any (fun kv => pkeyHits k kv.1)

/-- `possible_paths` of `_check_broken_wikilinks`: the four string forms,
then — since `str(file_path)` (an absolute path) always contains `/` —
the two `parent_dir / …` `Path` objects. -/
def possiblePaths (absFile target : List Char) : List PKey :=
  [PKey.pstr target, PKey.pstr (target ++ str ".md"),
   PKey.pstr (target ++ str "_index"), PKey.pstr (target ++ str "_index.md")]
  ++ (if hasCh '/' absFile then
        [PKey.ppath (parentOf absFile ++ '/' :: target),
         PKey.ppath (parentOf absFile ++ '/' :: (target ++ str ".md"))]
      else [])

/-- `[[page|alias]]` handling: target is the trimmed text before the
first `|` (or the whole trimmed text). -/
def linkTarget (linkText : List Char) : List Char :=
  if hasCh '|' linkText then trimPy (linkText.takeWhile (· ≠ '|'))
  else trimPy linkText

/-- `_check_broken_wikilinks`, restricted to one file of the corpus: the
issues this file contributes (the reference-tracking side effects feed
only the orphan check, which is not under scrutiny). -/
def checkBrokenWikilinksFile (idx : List (List Char × List Char))
    (root rel content : List Char) : List VIssue :=
  (wikilinkScan content).filterMap fun pg =>
    let target := linkTarget pg.2
    let absFile := root ++ '/' :: rel
    if (possiblePaths absFile target).any (fun k => pkeyMem k idx) then none
    else some
      { severity := str "warning", category := str "broken_link"
        filePath := rel, lineNum := some (lineOf content pg.1)
        message := str "Broken wikilink: [[" ++ pg.2 ++ str "]] - target not found"
        suggestion := some (str "Check if " ++ apos :: target ++ apos ::
          str " exists or if the path is correct. Consider creating the file or fixing the link.") }

/-- `_check_broken_wikilinks` over the whole corpus (files are visited in
sorted order by `_get_all_files`; sortedness does not affect the issue
multiset and the corpora below are listed sorted). -/
def checkBrokenWikilinks (root : List Char) (corpus : List (List Char × List Char)) :
    List VIssue :=
  let idx := buildIndex (corpus.map (·.1))
  (corpus.filter (fun f => visiblePath f.1)).flatMap fun f =>
    checkBrokenWikilinksFile idx root f.1 f.2

/-! ## Claim theorems: broken-wikilink resolution -/

/-- C3 (code bug, evaluated): in a corpus holding `dir/linker.md`
(containing the link `[[sub/doc]]`) and `dir/sub/doc.md`, the claim's
relative-to-linking-directory resolution step should resolve the link and
report nothing — the index even holds the string key `dir/sub/doc` — yet
the validator reports a `BrokenLink` warning: `possible_paths` appends
`pathlib.Path` objects (`parent_dir / target`), and membership of a
`Path` in the `str`-keyed `markdown_files` dict is always false (and the
`Path` candidates are absolute while every key is a stem or root-relative
path), so the relative fallback of `_check_broken_wikilinks` can never
resolve anything. -/
theorem C3_relative_fallback_dead :
    pkeyMem (PKey.pstr (str "dir/sub/doc"))
        (buildIndex [str "dir/linker.md", str "dir/sub/doc.md"]) = true ∧
    pkeyMem (PKey.ppath (str "/r/dir/sub/doc"))
        (buildIndex [str "dir/linker.md", str "dir/sub/doc.md"]) = false ∧
    possiblePaths (str "/r/dir/linker.md") (str "sub/doc")
      = [PKey.pstr (str "sub/doc"), PKey.pstr (str "sub/doc.md"),
         PKey.pstr (str "sub/doc_index"), PKey.pstr (str "sub/doc_index.md"),
         PKey.ppath (str "/r/dir/sub/doc"), PKey.ppath (str "/r/dir/sub/doc.md")] ∧
    checkBrokenWikilinks (str "/r")
        [(str "dir/linker.md", str "[[sub/doc]]"), (str "dir/sub/doc.md", str "x")]
      = [{ severity := str "warning", category := str "broken_link"
           filePath := str "dir/linker.md", lineNum := some 1
           message := str "Broken wikilink: [[sub/doc]] - target not found"
           suggestion := some (str "Check if " ++ apos :: str "sub/doc" ++ apos ::
             str " exists or if the path is correct. Consider creating the file or fixing the link.") }] := by
  decide

/-- C4 (counterexample): over a corpus holding `WE-260101-abcd_index.md`,
the canonical-case reference `[[WE-260101-abcd]]` resolves (no issue), but
the lower-case reference `[[we-260101-abcd]]` does not resolve to the same
document: dict lookups are case-sensitive, so the validator reports it as
a broken wikilink — refuting the claim that any letter case resolves
identically. -/
theorem C4_counterexample :
    checkBrokenWikilinks (str "/r")
        [(str "WE-260101-abcd_index.md", str "x"),
         (str "notes.md", str "see [[WE-260101-abcd]]")] = [] ∧
    (checkBrokenWikilinks (str "/r")
        [(str "WE-260101-abcd_index.md", str "x"),
         (str "notes.md", str "see [[we-260101-abcd]]")]).length = 1 := by
  decide

/-- C4 (amended): reference resolution is case-sensitive throughout. The
canonical-case reference resolves with no issue; the same reference in
lower case fails every lookup form and yields exactly one `BrokenLink`
warning; and the fixers never rewrite a non-canonical-case reference at
all, because their shared `WORK_EFFORT_ID_PATTERN` regex matches only the
canonical case (uppercase prefix, lowercase suffix). -/
theorem C4_case_sensitive_resolution :
    checkBrokenWikilinks (str "/r")
        [(str "WE-260101-abcd_index.md", str "x"),
         (str "notes.md", str "see [[WE-260101-abcd]]")] = [] ∧
    checkBrokenWikilinks (str "/r")
        [(str "WE-260101-abcd_index.md", str "x"),
         (str "notes.md", str "see [[we-260101-abcd]]")]
      = [{ severity := str "warning", category := str "broken_link"
           filePath := str "notes.md", lineNum := some 1
           message := str "Broken wikilink: [[we-260101-abcd]] - target not found"
           suggestion := some (str "Check if " ++ apos :: str "we-260101-abcd" ++ apos ::
             str " exists or if the path is correct. Consider creating the file or fixing the link.") }] ∧
    weIdSpans (str "see we-260101-abcd") = [] ∧
    weIdSpans (str "see WE-260101-abcd") = [(4, 14)] := by
  decide

/-! ## `tools/naming-linter/rules/work_efforts.py`

`_validate_tickets_dir` checks only ticket *file names* (the grammar
`TICKET_PATTERN = r'^TKT-\d{6}-\d{3}_[a-z0-9_]+\.md$'` of
`rules/common.py`, and the filename-embedded date against the parent
work-effort date); it never opens a ticket file.  `apply_fixes` applies
violations to the filesystem with Python-on-POSIX `Path.rename`
semantics, catching any exception per fix. -/

/-- A violation dictionary of the naming linter. -/
structure Violation where
  vtype : List Char
  path : List Char
  message : List Char
  actual : Option (List Char) := none
  expected : Option (List Char) := none
  deriving Repr, DecidableEq

/-- `[a-z0-9_]` of `TICKET_PATTERN`. -/
def isDescCh (c : Char) : Bool := isLowerAlnum c || c = '_'

/-- `re.match(TICKET_PATTERN, filename)` as a Boolean (the groups are
unused). -/
def ticketNameOk (fn : List Char) : Bool :=
  match dropLit (str "TKT-") fn with
  | none => false
  | some r1 =>
    match takeCount isDigitCh 6 r1 with
    | none => false
    | some (_, r2) =>
      match dropLit ['-'] r2 with
      | none => false
      | some r3 =>
        match takeCount isDigitCh 3 r3 with
        | none => false
        | some (_, r4) =>
          match dropLit ['_'] r4 with
          | none => false
          | some r5 =>
            let desc := r5.takeWhile isDescCh
            if desc.isEmpty then false
            else match dropLit (str ".md") (r5.drop desc.length) with
                 | none => false
                 | some r6 => atEnd r6

/-- `re.match(r'^(TKT-\d{6}-\d{3})_', filename)`: the captured ticket id. -/
def ticketFileIdTry (fn : List Char) : Option (List Char) :=
  match dropLit (str "TKT-") fn with
  | none => none
  | some r1 =>
    match takeCount isDigitCh 6 r1 with
    | none => none
    | some (d6, r2) =>
      match dropLit ['-'] r2 with
      | none => none
      | some r3 =>
        match takeCount isDigitCh 3 r3 with
        | none => none
        | some (d3, r4) =>
          match dropLit ['_'] r4 with
          | none => none
          | some _ => some (str "TKT-" ++ d6 ++ '-' :: d3)

/-- `_validate_tickets_dir(tickets_dir, we_id)` over the `*.md` entries of
the tickets directory, given as `(file name, file content)` pairs: the
violations contributed.  The file contents are never consulted — exactly
as in the source, which never opens a ticket file. -/
def validateTicketsDir (ticketsDir weId : List Char)
    (tickets : List (List Char × List Char)) : List Violation :=
  let datePart := ((splitOnCh '-' weId).drop 1).headD []
  (tickets.filter (fun t => endsWithStr (str ".md") t.1)).flatMap fun t =>
    let filename := t.1
    if ¬ ticketNameOk filename then
      [{ vtype := str "INVALID_TICKET_NAME"
         path := ticketsDir ++ '/' :: filename
         message := str "Ticket file must match pattern: TKT-YYMMDD-NNN_description.md"
         actual := some filename }]
    else
      match ticketFileIdTry filename with
      | some ticketId =>
          let ticketDate := ((splitOnCh '-' ticketId).drop 1).headD []
          if ticketDate ≠ datePart then
            [{ vtype := str "TICKET_DATE_MISMATCH"
               path := ticketsDir ++ '/' :: filename
               message := str "Ticket date (" ++ ticketDate ++
                 str ") does not match WE date (" ++ datePart ++ [')']
               actual := some ticketId
               expected := some (str "TKT-" ++ datePart ++ str "-XXX") }]
          else []
      | none => []

/-! ## Filesystem model and `apply_fixes`

A filesystem state is a finite map from absolute path to content.
`Path.rename` is Python on POSIX: it raises if the source is missing
(modelled as `none`) and **silently replaces** an existing destination
(`os.rename(2)` semantics). -/

/-- The filesystem: path–content pairs, paths unique. -/
abbrev FS := List (List Char × List Char)

/-- Read a file (`none` models the raised `OSError`). -/
def fsRead (fs : FS) (p : List Char) : Option (List Char) :=
  (List.find? (fun e => e.1 == p) fs).map (·.2)

/-- Write (create or replace) a file. -/
def fsWrite (fs : FS) (p c : List Char) : FS :=
  if (List.find? (fun e => e.1 == p) fs).isSome then
    fs.map (fun e => if e.1 == p then (p, c) else e)
  else fs ++ [(p, c)]

/-- Remove a path. -/
def fsRemove (fs : FS) (p : List Char) : FS := fs.filter (fun e => !(e.1 == p))

/-- `Path.rename` on POSIX: missing source raises; an existing
destination is silently replaced. -/
def fsRename (fs : FS) (src dst : List Char) : Option FS :=
  match fsRead fs src with
  | none => none
  | some c => some (fsWrite (fsRemove fs src) dst c)

/-- `\s*\n` (greedy): consume the leading whitespace run up to and
including its last newline; fail if the run holds no newline. -/
def consumeWsNl (l : List Char) : Option (List Char) :=
  let ws := l.takeWhile isSpaceCh
  match lastIdxOf '\n' ws with
  | none => none
  | some i => some (l.drop (i + 1))

/-- The lazy group of `(.*?)(\n---)`: split at the first `\n---`. -/
def findNlDashes : List Char → Option (List Char × List Char)
  | [] => none
  | c :: rest =>
      if c = '\n' && startsWithStr (str "---") rest then some ([], rest.drop 3)
      else (findNlDashes rest).map (fun p => (c :: p.1, p.2))

/-- `re.match(r'^(---\s*\n)(.*?)(\n---)', content, re.DOTALL)` of
`_fix_frontmatter_id`: the inner frontmatter text and the remainder after
the closing `\n---`.  Backtracking of the greedy `\s*` is immaterial
here: shortening `\s*\n` only moves leading whitespace into the lazy
group, and a first `\n---` exists after the longest split iff one exists
after a shorter one. -/
def fmMatchNaming (content : List Char) : Option (List Char × List Char) :=
  if startsWithStr (str "---") content then
    match consumeWsNl (content.drop 3) with
    | none => none
    | some afterOpen => findNlDashes afterOpen
  else none

/-- `yaml.safe_load` restricted to the flat `key: value` scalar mappings
this corpus stores in frontmatter: ordered key–value pairs. -/
def parseFlatYaml (inner : List Char) : List (List Char × List Char) :=
  (splitOnCh '\n' inner).filterMap fun line =>
    if hasCh ':' line then
      some (trimPy (line.takeWhile (· ≠ ':')), trimPy ((line.dropWhile (· ≠ ':')).drop 1))
    else none

/-- `frontmatter['id'] = correct_id`: update in place, else append (dict
insertion-order semantics). -/
def setKey (m : List (List Char × List Char)) (k v : List Char) :
    List (List Char × List Char) :=
  if (List.find? (fun e => e.1 == k) m).isSome then
    m.map (fun e => if e.1 == k then (k, v) else e)
  else m ++ [(k, v)]

/-- `yaml.dump(..., default_flow_style=False, sort_keys=False)` of a flat
scalar mapping. -/
def dumpFlatYaml (m : List (List Char × List Char)) : List Char :=
  m.flatMap fun e => e.1 ++ ':' :: ' ' :: e.2 ++ ['\n']

/-- `_fix_frontmatter_id`: rewrite the `id` field; no frontmatter match
means no write; a missing file raises (`none`). -/
def fixFrontmatterId (fs : FS) (p correctId : List Char) : Option FS :=
  match fsRead fs p with
  | none => none
  | some content =>
    match fmMatchNaming content with
    | none => some fs
    | some (inner, rest) =>
        some (fsWrite fs p (str "---\n" ++
          dumpFlatYaml (setKey (parseFlatYaml inner) (str "id") correctId) ++
          str "---" ++ rest))

/-- `re.match(r'^(WE-\d{6}-[a-z0-9]{4})_', folder)`: the captured id. -/
def weFolderIdTry (folder : List Char) : Option (List Char) :=
  match dropLit (str "WE-") folder with
  | none => none
  | some r1 =>
    match takeCount isDigitCh 6 r1 with
    | none => none
    | some (d6, r2) =>
      match dropLit ['-'] r2 with
      | none => none
      | some r3 =>
        match takeCount isLowerAlnum 4 r3 with
        | none => none
        | some (s4, r4) =>
          match dropLit ['_'] r4 with
          | none => none
          | some _ => some (str "WE-" ++ d6 ++ '-' :: s4)

/-- `re.search(r'-(\d{3})_', name)`: the first captured group. -/
def seqSearch : List Char → Option (List Char)
  | [] => none
  | c :: rest =>
      (if c = '-' then
        match takeCount isDigitCh 3 rest with
        | some (d3, '_' :: _) => some d3
        | _ => none
      else none).orElse (fun _ => seqSearch rest)

/-- `re.search(r'-\d{3}_(.+)\.md$', name)`: the description after the
first `-NNN_` whose remainder is a non-empty single-line text ending in
`.md`. -/
def descSearch : List Char → Option (List Char)
  | [] => none
  | c :: rest =>
      (if c = '-' then
        match takeCount isDigitCh 3 rest with
        | some (_, '_' :: r2) =>
            if 4 ≤ r2.length && endsWithStr (str ".md") r2 && !hasCh '\n' r2 then
              some (r2.take (r2.length - 3))
            else none
        | _ => none
      else none).orElse (fun _ => descSearch rest)

/-- `_fix_ticket_name`: rename a mis-named ticket to the name derived
from the parent work-effort folder, then rewrite its frontmatter id.
`none` models an uncaught exception inside the fix (missing source);
`some (applied?, fs)` the normal returns. -/
def fixTicketName (fs : FS) (ticketPath : List Char) : Option (Bool × FS) :=
  match weFolderIdTry (fileNameOf (parentOf (parentOf ticketPath))) with
  | none => some (false, fs)
  | some weId =>
    let datePart := ((splitOnCh '-' weId).drop 1).headD []
    let currentName := fileNameOf ticketPath
    match seqSearch currentName with
    | none => some (false, fs)
    | some sequence =>
      match descSearch currentName with
      | none => some (false, fs)
      | some description =>
        let correctFilename := str "TKT-" ++ datePart ++ '-' :: sequence ++
          '_' :: description ++ str ".md"
        if currentName == correctFilename then some (true, fs)
        else
          let newPath := parentOf ticketPath ++ '/' :: correctFilename
          match fsRename fs ticketPath newPath with
          | none => none
          | some fs1 =>
            match fixFrontmatterId fs1 newPath (str "TKT-" ++ datePart ++ '-' :: sequence) with
            | none => none
            | some fs2 => some (true, fs2)

/-- `apply_fixes`: apply each violation in order; a raised exception
aborts only that fix (`except` per iteration) and the loop continues.
Returns the final filesystem and `fixed_count`. -/
def applyFixes (violations : List Violation) (fs : FS) : Nat × FS :=
  violations.foldl (fun st v =>
    let (count, fs) := st
    if v.vtype == str "INCORRECT_INDEX_NAME" then
      match fsRename fs v.path (parentOf v.path ++ '/' :: v.expected.getD []) with
      | none => (count, fs)
      | some fs1 => (count + 1, fs1)
    else if v.vtype == str "ID_MISMATCH" then
      match fixFrontmatterId fs v.path (v.expected.getD []) with
      | none => (count, fs)
      | some fs1 => (count + 1, fs1)
    else if v.vtype == str "INVALID_TICKET_NAME" then
      match fixTicketName fs v.path with
      | none => (count, fs)
      | some (true, fs1) => (count + 1, fs1)
      | some (false, fs1) => (count, fs1)
    else (count, fs)) (0, fs)

/-! ## Claim theorems: naming linter -/

/-- C5 (counterexample): a ticket file named `TKT-260101-001_fix_login.md`
under work effort `WE-260101-a1b2` whose frontmatter declares
`id: TKT-260102-001` produces **zero** violations — not one fixable
`IdMismatch`: `_validate_tickets_dir` validates only the file *name*
(grammar, and filename date against the parent date, both of which are
consistent here) and never opens a ticket file, so the mismatched
frontmatter id is never seen and fix mode has nothing to rewrite. -/
theorem C5_counterexample :
    hasSub (str "id: TKT-260102-001") (str "---\nid: TKT-260102-001\n---\nBody\n") = true ∧
    validateTicketsDir (str "/w/WE-260101-a1b2_demo/tickets") (str "WE-260101-a1b2")
      [(str "TKT-260101-001_fix_login.md", str "---\nid: TKT-260102-001\n---\nBody\n")]
      = [] := by
  decide

/-- C5 (amended): the ticket validator checks only the file name: the
scenario file (well-formed name, frontmatter id disagreeing with it)
yields zero violations and nothing for fix mode to do, while a file whose
*name* embeds the wrong date yields exactly one `TICKET_DATE_MISMATCH`
(with the `expected` date pattern) — frontmatter agreement is never
checked for tickets. -/
theorem C5_ticket_checks_filename_only :
    validateTicketsDir (str "/w/WE-260101-a1b2_demo/tickets") (str "WE-260101-a1b2")
      [(str "TKT-260101-001_fix_login.md", str "---\nid: TKT-260102-001\n---\nBody\n")]
      = [] ∧
    validateTicketsDir (str "/w/WE-260101-a1b2_demo/tickets") (str "WE-260101-a1b2")
      [(str "TKT-260102-001_fix_login.md", str "---\nid: TKT-260102-001\n---\nBody\n")]
      = [{ vtype := str "TICKET_DATE_MISMATCH"
           path := str "/w/WE-260101-a1b2_demo/tickets/TKT-260102-001_fix_login.md"
           message := str "Ticket date (260102) does not match WE date (260101)"
           actual := some (str "TKT-260102-001")
           expected := some (str "TKT-260101-XXX") }] := by
  decide

/-- C8 (counterexample): a rename fix whose expected target name already
exists does **not** abort: `Path.rename` on POSIX silently replaces the
destination, so `apply_fixes` deletes the existing
`WE-260101-a1b2_index.md` (content `B`), installs the renamed file in its
place, reports no conflict, and counts the fix as applied. -/
theorem C8_counterexample :
    applyFixes
      [{ vtype := str "INCORRECT_INDEX_NAME"
         path := str "/w/WE-260101-a1b2_demo/old_index.md"
         message := str "Index file has incorrect name"
         actual := some (str "old_index.md")
         expected := some (str "WE-260101-a1b2_index.md") }]
      [(str "/w/WE-260101-a1b2_demo/old_index.md", str "A"),
       (str "/w/WE-260101-a1b2_demo/WE-260101-a1b2_index.md", str "B")]
      = (1, [(str "/w/WE-260101-a1b2_demo/WE-260101-a1b2_index.md", str "A")]) := by
  decide

/-- C8 (amended): `apply_fixes` performs an unconditional rename — an
existing destination is silently replaced (see the counterexample) — and
only a fix that raises is aborted, alone: with a batch whose first rename
raises (its source is gone) and whose second is sound, the first is
skipped, the second is still applied, and the reported count is 1. -/
theorem C8_continue_after_failure :
    applyFixes
      [{ vtype := str "INCORRECT_INDEX_NAME"
         path := str "/w/X/missing_index.md"
         message := str "Index file has incorrect name"
         expected := some (str "WE-260101-z9z9_index.md") },
       { vtype := str "INCORRECT_INDEX_NAME"
         path := str "/w/Y/old_index.md"
         message := str "Index file has incorrect name"
         expected := some (str "WE-260101-b2c3_index.md") }]
      [(str "/w/Y/old_index.md", str "C")]
      = (1, [(str "/w/Y/WE-260101-b2c3_index.md", str "C")]) := by
  decide

/-! ## `tools/obsidian-linter/check.py` — the linter

`ObsidianLinter.lint_file` runs five checks over one file and — whenever
`_check_formatting` produced a fixed content and `dry_run` is false —
writes the fixed content back.  `main` parses `--fix`/`--dry-run`/
`--strict` but passes only `dry_run` (and `strict`) to the linter.
Checks can raise: `_check_frontmatter` evaluates
`id_value.split('-')[1]` for `TKT-` files, an `IndexError` on an id
without a dash, caught nowhere; exceptions are modelled with `Except`. -/

/-- A `LintIssue` of `check.py`. -/
structure LintIssue where
  filePath : List Char
  lineNum : Option Nat
  severity : List Char
  category : List Char
  message : List Char
  fixAvailable : Bool := false
  deriving Repr, DecidableEq

/-- Decimal rendering of a count (`str(n)` / `len(...)` interpolation). -/
def natStr (n : Nat) : List Char := Nat.toDigits 10 n

/-- `sep.join(parts)`. -/
def joinStr (sep : List Char) : List (List Char) → List Char
  | [] => []
  | [p] => p
  | p :: rest => p ++ sep ++ joinStr sep rest

/-- `_index_markdown_files` of `check.py` (and `fix-all.py`,
`fix-links.py`): three string keys per file — stem, relative path,
relative path without suffix. -/
def buildIndex3 (files : List (List Char)) : List (List Char × List Char) :=
  (files.filter visiblePath).flatMap fun rel =>
    [(stemOf rel, rel), (rel, rel), (withSuffixEmpty rel, rel)]

/-- Indices of `'\n'` inside a whitespace run, longest-consumption first
(the backtracking order of a greedy `\s*` followed by `\n`). -/
def nlIndicesDesc (ws : List Char) : List Nat :=
  ((ws.enum.filter (fun ic => ic.2 = '\n')).map (fun ic => ic.1)).reverse

/-- First success of `f` over a list (backtracking order). -/
def firstSome (l : List α) (f : α → Option β) : Option β :=
  l.foldl (fun acc a => acc.orElse (fun _ => f a)) none

/-- The lazy group of `(.*?)\n---\s*\n`: split at the first `\n---` whose
remainder also satisfies the closing `\s*\n`. -/
def findCloseFm : List Char → Option (List Char × List Char)
  | [] => none
  | c :: rest =>
      if c = '\n' && startsWithStr (str "---") rest then
        match consumeWsNl (rest.drop 3) with
        | some after => some ([], after)
        | none => (findCloseFm rest).map (fun p => (c :: p.1, p.2))
      else (findCloseFm rest).map (fun p => (c :: p.1, p.2))

/-- `FRONTMATTER_PATTERN.match(content)`:
`^---\s*\n(.*?)\n---\s*\n` with `DOTALL` — the inner text and the
remainder after the match end. -/
def fmFullMatch (content : List Char) : Option (List Char × List Char) :=
  if startsWithStr (str "---") content then
    firstSome (nlIndicesDesc ((content.drop 3).takeWhile isSpaceCh)) fun i =>
      findCloseFm ((content.drop 3).drop (i + 1))
  else none

/-- `_parse_simple_yaml`: ordered `key: value` pairs (blank and `#` lines
skipped, surrounding single or double quotes stripped). -/
def parseSimpleYamlPy (inner : List Char) : List (List Char × List Char) :=
  (splitOnCh '\n' inner).filterMap fun rawLine =>
    let line := trimPy rawLine
    if line.isEmpty || startsWithStr ['#'] line then none
    else if hasCh ':' line then
      let key := trimPy (line.takeWhile (· ≠ ':'))
      let v := trimPy ((line.dropWhile (· ≠ ':')).drop 1)
      let v := if 2 ≤ v.length && v.headD ' ' = '"' && v.getLastD ' ' = '"' then
                 (v.drop 1).dropLast
               else if 2 ≤ v.length && v.headD ' ' = apos && v.getLastD ' ' = apos then
                 (v.drop 1).dropLast
               else v
      some (key, v)
    else none

/-- `key in fields`. -/
def hasKeyY (m : List (List Char × List Char)) (k : List Char) : Bool :=
  m.any (fun e => e.1 == k)

/-- `fields[key]` (later assignments overwrite earlier ones). -/
def getKeyY (m : List (List Char × List Char)) (k : List Char) : List Char :=
  ((m.reverse.find? (fun e => e.1 == k)).map (·.2)).getD []

/-- `str.lower()` (ASCII, which is all the statuses use). -/
def lowerPy (l : List Char) : List Char := l.map Char.toLower

/-- The `created` ISO-8601 shape
`^\d{4}-\d{2}-\d{2}(T\d{2}:\d{2}:\d{2}(\.\d{3})?Z?)?$`. -/
def isoCreatedOk (s : List Char) : Bool :=
  let core : Option (List Char) := do
    let (_, r) ← takeCount isDigitCh 4 s
    let r ← dropLit ['-'] r
    let (_, r) ← takeCount isDigitCh 2 r
    let r ← dropLit ['-'] r
    let (_, r) ← takeCount isDigitCh 2 r
    pure r
  match core with
  | none => false
  | some r =>
    if atEnd r then true
    else
      match (do
        let r ← dropLit ['T'] r
        let (_, r) ← takeCount isDigitCh 2 r
        let r ← dropLit [':'] r
        let (_, r) ← takeCount isDigitCh 2 r
        let r ← dropLit [':'] r
        let (_, r) ← takeCount isDigitCh 2 r
        pure r : Option (List Char)) with
      | none => false
      | some r =>
        let r := match (do
            let r2 ← dropLit ['.'] r
            let (_, r2) ← takeCount isDigitCh 3 r2
            pure r2 : Option (List Char)) with
          | some r2 => r2
          | none => r
        let r := match dropLit ['Z'] r with
          | some r2 => r2
          | none => r
        atEnd r

/-- `_check_frontmatter`: the issues it appends, or the uncaught
`IndexError` raised at `ticket_suffix = id_value.split('-')[1]` when a
`TKT-` file declares an id without a dash. -/
def checkFrontmatter (idx : List (List Char × List Char)) (strict : Bool)
    (absPath rel content : List Char) : Except (List Char) (List LintIssue) :=
  if ¬ startsWithStr (str "---\n") content then
    .ok (if strict then
      [{ filePath := rel, lineNum := some 1, severity := str "warning"
         category := str "frontmatter", message := str "No YAML frontmatter found" }]
    else [])
  else
    match fmFullMatch content with
    | none => .ok
        [{ filePath := rel, lineNum := some 1, severity := str "error"
           category := str "frontmatter"
           message := str "Malformed frontmatter (missing closing ---)" }]
    | some (inner, _) =>
      let fields := parseSimpleYamlPy inner
      let missing := [str "created", str "id", str "status", str "title"].filter
        (fun f => ¬ hasKeyY fields f)
      let missingIssues := if missing.isEmpty then [] else
        [{ filePath := rel, lineNum := some 1, severity := str "warning"
           category := str "frontmatter"
           message := str "Missing standard fields: " ++ joinStr (str ", ") missing }]
      let stem := stemOf rel
      let isWeFile := startsWithStr (str "WE-") stem || endsWithStr (str "_index") stem
      let idIssues := if hasKeyY fields (str "id") then
          let idv := getKeyY fields (str "id")
          if isWeFile then
            if (matchWorkEffort idv).isSome then [] else
            [{ filePath := rel, lineNum := some 1, severity := str "error"
               category := str "frontmatter"
               message := str "Invalid work effort ID format: " ++ idv ++
                 str " (expected WE-YYMMDD-xxxx)" }]
          else if startsWithStr (str "TKT-") stem then
            if (matchTicket idv).isSome then [] else
            [{ filePath := rel, lineNum := some 1, severity := str "error"
               category := str "frontmatter"
               message := str "Invalid ticket ID format: " ++ idv ++
                 str " (expected TKT-xxxx-NNN)" }]
          else []
        else []
      let statusIssues := if hasKeyY fields (str "status") then
          let status := lowerPy (getKeyY fields (str "status"))
          if isWeFile then
            if status = str "active" || status = str "paused" || status = str "completed"
            then [] else
            [{ filePath := rel, lineNum := some 1, severity := str "warning"
               category := str "frontmatter"
               message := str "Invalid work effort status: " ++ status ++
                 str " (expected: active, completed, paused)" }]
          else if startsWithStr (str "TKT-") stem then
            if status = str "pending" || status = str "in_progress" ||
               status = str "completed" || status = str "blocked" then [] else
            [{ filePath := rel, lineNum := some 1, severity := str "warning"
               category := str "frontmatter"
               message := str "Invalid ticket status: " ++ status ++
                 str " (expected: blocked, completed, in_progress, pending)" }]
          else []
        else []
      let createdIssues := if hasKeyY fields (str "created") then
          let created := getKeyY fields (str "created")
          if isoCreatedOk created then [] else
          [{ filePath := rel, lineNum := some 1, severity := str "warning"
             category := str "frontmatter"
             message := str "Invalid date format: " ++ created ++
               str " (expected ISO 8601: YYYY-MM-DD or YYYY-MM-DDTHH:mm:ss.sssZ)" }]
        else []
      let parentIssues := if startsWithStr (str "TKT-") stem && hasKeyY fields (str "parent") then
          let parentId := getKeyY fields (str "parent")
          if ¬ (matchWorkEffort parentId).isSome then
            [{ filePath := rel, lineNum := some 1, severity := str "error"
               category := str "frontmatter"
               message := str "Invalid parent ID format: " ++ parentId ++
                 str " (expected WE-YYMMDD-xxxx)" }]
          else if idx.any (fun kv =>
              hasSub parentId kv.1 || startsWithStr parentId (stemOf kv.2)) then []
          else
            [{ filePath := rel, lineNum := some 1, severity := str "warning"
               category := str "frontmatter"
               message := str "Parent work effort not found: " ++ parentId }]
        else []
      if hasKeyY fields (str "id") then
        let idv := getKeyY fields (str "id")
        if isWeFile then
          let nameIssues := if ¬ startsWithStr idv stem &&
              ¬ endsWithStr idv (parentOf absPath) then
            [{ filePath := rel, lineNum := some 1, severity := str "info"
               category := str "frontmatter"
               message := str "ID " ++ apos :: idv ++ apos ::
                 str " may not match file/folder naming pattern" }]
          else []
          .ok (missingIssues ++ idIssues ++ statusIssues ++ createdIssues ++
               parentIssues ++ nameIssues)
        else if startsWithStr (str "TKT-") stem then
          match ((splitOnCh '-' idv).drop 1).head? with
          | none => .error (str "IndexError: list index out of range")
          | some ticketSuffix =>
            let nameIssues := if hasKeyY fields (str "parent") then
                let parentSuffix := (splitOnCh '-' (getKeyY fields (str "parent"))).getLastD []
                if ticketSuffix ≠ parentSuffix then
                  [{ filePath := rel, lineNum := some 1, severity := str "warning"
                     category := str "frontmatter"
                     message := str "Ticket ID suffix " ++ apos :: ticketSuffix ++ apos ::
                       str " doesn" ++ apos :: str "t match parent work effort suffix " ++
                       apos :: parentSuffix ++ [apos] }]
                else []
              else []
            .ok (missingIssues ++ idIssues ++ statusIssues ++ createdIssues ++
                 parentIssues ++ nameIssues)
        else
          .ok (missingIssues ++ idIssues ++ statusIssues ++ createdIssues ++ parentIssues)
      else
        .ok (missingIssues ++ idIssues ++ statusIssues ++ createdIssues ++ parentIssues)

/-- `_check_wikilinks` of `check.py`: a broken-wikilink warning for each
link whose (trimmed, alias-stripped) target is not an index key. -/
def checkWikilinksCk (idx : List (List Char × List Char)) (rel content : List Char) :
    List LintIssue :=
  (wikilinkScan content).filterMap fun pg =>
    let target := trimPy (if hasCh '|' pg.2 then pg.2.takeWhile (· ≠ '|') else pg.2)
    if idx.any (fun kv => kv.1 == target) then none
    else some
      { filePath := rel, lineNum := some (lineOf content pg.1)
        severity := str "warning", category := str "wikilink"
        message := str "Broken wikilink: [[" ++ pg.2 ++ str "]] - target not found" }

/-- `_check_unlinked_references`: bare `TKT-`/`WE-` mentions outside
wikilinks and frontmatter that have a file in the index, as info issues. -/
def checkUnlinked (idx : List (List Char × List Char)) (absPath rel content : List Char) :
    List LintIssue :=
  let wikiRanges := (wikilinkScan content).map (fun pg => (pg.1, pg.1 + pg.2.length + 4))
  let fmEnd := match fmFullMatch content with
    | some (_, after) => content.length - after.length
    | none => 0
  let stem := stemOf rel
  let ownTicket : Option (List Char) :=
    if startsWithStr (str "TKT-") stem then some (stem.takeWhile (· ≠ '_')) else none
  let ownWe : Option (List Char) :=
    if ¬ startsWithStr (str "TKT-") stem &&
       (endsWithStr (str "_index") stem || hasSub (str "WE-") stem) then
      match weIdSpans absPath with
      | pn :: _ => some ((absPath.drop pn.1).take pn.2)
      | [] => none
    else none
  let skippedAt := fun (pos : Nat) =>
    wikiRanges.any (fun r => r.1 ≤ pos && pos < r.2) || pos < fmEnd
  let tktIssues := (tktIdSpans content).filterMap fun pn =>
    if skippedAt pn.1 then none
    else
      let tid := (content.drop pn.1).take pn.2
      if ownTicket = some tid then none
      else if idx.any (fun kv =>
          startsWithStr tid (stemOf kv.2) || startsWithStr tid kv.1) then
        some { filePath := rel, lineNum := some (lineOf content pn.1)
               severity := str "info", category := str "wikilink"
               message := str "Unlinked ticket reference: " ++ tid ++
                 str " (should be [[" ++ tid ++ str "]] or [[" ++ tid ++ str "|...]])" }
      else none
  let weIssues := (weIdSpans content).filterMap fun pn =>
    if skippedAt pn.1 then none
    else
      let wid := (content.drop pn.1).take pn.2
      if ownWe = some wid then none
      else
        let possible := [wid, wid ++ str "_index",
          wid ++ '/' :: (wid ++ str "_index"), wid ++ '/' :: (wid ++ str "_index.md")]
        if possible.any (fun k => idx.any (fun kv => kv.1 == k)) then
          some { filePath := rel, lineNum := some (lineOf content pn.1)
                 severity := str "info", category := str "wikilink"
                 message := str "Unlinked work effort reference: " ++ wid ++
                   str " (should be [[" ++ wid ++ str "]] or [[" ++ wid ++ str "_index|...]])" }
        else none
  tktIssues ++ weIssues

/-- One attempt of `- \[([ xX])\](.*)` after exactly `k` consumed
whitespace characters: total matched length, checkbox character and
trailing text. -/
def taskAttempt (l : List Char) (k : Nat) : Option (Nat × Char × List Char) :=
  match l.drop k with
  | '-' :: ' ' :: '[' :: c :: ']' :: r =>
      if c = ' ' || c = 'x' || c = 'X' then
        some (k + 5 + (r.takeWhile (· ≠ '\n')).length, c, r.takeWhile (· ≠ '\n'))
      else none
  | _ => none

/-- Attempt of `(\s*)- \[([ xX])\](.*)` with the greedy leading `\s*`
tried from `k` whitespace characters downward (backtracking order). -/
def taskTryAt (l : List Char) : Nat → Option (Nat × Char × List Char)
  | 0 => taskAttempt l 0
  | k + 1 => (taskAttempt l (k + 1)).orElse (fun _ => taskTryAt l k)

/-- `TASK_LIST_PATTERN.finditer`: `(start, checkbox, text-after)` of each
`^(\s*)- \[([ xX])\](.*)$` match (`^` at offset 0 or after a newline;
the greedy `\s*` may cross line breaks). -/
def taskScanGo (prevNl : Bool) (pos skip : Nat) : List Char → List (Nat × Char × List Char)
  | [] => []
  | c :: rest =>
    match skip with
    | s + 1 => taskScanGo (c = '\n') (pos + 1) s rest
    | 0 =>
      match (if prevNl then
               taskTryAt (c :: rest) ((c :: rest).takeWhile isSpaceCh).length
             else none) with
      | some (len, cb, text) => (pos, cb, text) :: taskScanGo false (pos + 1) (len - 1) rest
      | none => taskScanGo (c = '\n') (pos + 1) 0 rest

def taskScan (content : List Char) : List (Nat × Char × List Char) :=
  taskScanGo true 0 0 content

/-- `CODE_FENCE_PATTERN.finditer`: offsets of line-initial triple
backticks. -/
def codeFenceGo (prevNl : Bool) (pos : Nat) : List Char → List Nat
  | [] => []
  | c :: rest =>
      let hit := prevNl && startsWithStr (str "```") (c :: rest)
      (if hit then [pos] else []) ++ codeFenceGo (c = '\n') (pos + 1) rest

/-- Consecutive fence pairs (`range(0, len-1, 2)`). -/
def pairUp : List Nat → List (Nat × Nat)
  | a :: b :: rest => (a, b) :: pairUp rest
  | _ => []

/-- `_check_task_lists`.  The mixed-style message interpolates a Python
`set` whose iteration order is hash-randomized; it is rendered here in
one fixed order and no theorem depends on that branch. -/
def checkTaskLists (rel content : List Char) : List LintIssue :=
  let ranges := pairUp (codeFenceGo true 0 content)
  let ms := (taskScan content).filter fun m =>
    ¬ ranges.any (fun r => r.1 ≤ m.1 && m.1 ≤ r.2)
  let perMatch := ms.flatMap fun m =>
    (if m.2.1 = 'X' then
      [{ filePath := rel, lineNum := some (lineOf content m.1)
         severity := str "info", category := str "task_list"
         message := str "Task list uses uppercase [X], lowercase [x] is recommended"
         fixAvailable := true : LintIssue }]
     else []) ++
    (if ¬ m.2.2.isEmpty && ¬ startsWithStr [' '] m.2.2 then
      [{ filePath := rel, lineNum := some (lineOf content m.1)
         severity := str "info", category := str "task_list"
         message := str "Task list missing space after checkbox"
         fixAvailable := true : LintIssue }]
     else [])
  let mixed := if (ms.any (fun m => m.2.1 = 'x')) && (ms.any (fun m => m.2.1 = 'X')) then
      [{ filePath := rel, lineNum := none
         severity := str "info", category := str "task_list"
         message := str "Inconsistent checkbox styles: both x and X used" : LintIssue }]
    else []
  perMatch ++ mixed

/-- One attempt of `\s+(.+)` after exactly `k` consumed whitespace
characters. -/
def headingAttempt (level : Nat) (rest : List Char) (k : Nat) :
    Option (Nat × Nat × List Char) :=
  let text := (rest.drop k).takeWhile (· ≠ '\n')
  if 1 ≤ k && ¬ text.isEmpty then some (level + k + text.length, level, text)
  else none

/-- Attempt of `(#{1,6})\s+(.+)` at a line start, greedy `\s+` tried
longest-first: total length, heading level and text. -/
def headingTryK (level : Nat) (rest : List Char) : Nat → Option (Nat × Nat × List Char)
  | 0 => headingAttempt level rest 0
  | k + 1 => (headingAttempt level rest (k + 1)).orElse (fun _ => headingTryK level rest k)

/-- `HEADING_PATTERN.findall`: `(level, text)` of each
`^(#{1,6})\s+(.+)$` match. -/
def headingScanGo (prevNl : Bool) (pos skip : Nat) : List Char → List (Nat × List Char)
  | [] => []
  | c :: rest =>
    match skip with
    | s + 1 => headingScanGo (c = '\n') (pos + 1) s rest
    | 0 =>
      match (if prevNl then
               let hs := ((c :: rest).takeWhile (· = '#')).length
               if 1 ≤ hs && hs ≤ 6 then
                 headingTryK hs ((c :: rest).drop hs)
                   (((c :: rest).drop hs).takeWhile isSpaceCh).length
               else none
             else none) with
      | some (len, lv, text) => (lv, text) :: headingScanGo false (pos + 1) (len - 1) rest
      | none => headingScanGo (c = '\n') (pos + 1) 0 rest

def headingScan (content : List Char) : List (Nat × List Char) :=
  headingScanGo true 0 0 content

/-- Offset of the first occurrence of `sub` (for the `re.search` used to
recover a heading line number). -/
def findSubPos (sub : List Char) : Nat → List Char → Option Nat
  | pos, [] => if sub.isEmpty then some pos else none
  | pos, c :: rest =>
      if startsWithStr sub (c :: rest) then some pos
      else findSubPos sub (pos + 1) rest

/-- The skipped-level and multiple-H1 analysis of `_check_formatting`
over the heading list. -/
def headingIssues (rel content : List Char) (hs : List (Nat × List Char)) :
    List LintIssue :=
  let skipped := (hs.zip (0 :: hs.map (·.1))).filterMap fun hp =>
    let level := hp.1.1
    let text := hp.1.2
    let prev := hp.2
    if 0 < prev && prev + 1 < level then
      some { filePath := rel
             lineNum := (findSubPos (List.replicate level '#' ++ ' ' :: text) 0 content).map
               (lineOf content)
             severity := str "warning", category := str "formatting"
             message := str "Heading level skipped: " ++ natStr prev ++
               str " -> " ++ natStr level : LintIssue }
    else none
  let h1s := (hs.filter (fun h => h.1 = 1)).length
  skipped ++ (if 2 ≤ h1s then
    [{ filePath := rel, lineNum := none
       severity := str "warning", category := str "formatting"
       message := str "Multiple H1 headings (" ++ natStr h1s ++
         str ") - should have only one" : LintIssue }]
  else [])

/-- Strip the trailing run of spaces (`' +$'`, `MULTILINE`) from every
line. -/
def stripTrailSpaces (content : List Char) : List Char :=
  joinCh '\n' ((splitOnCh '\n' content).map fun ln =>
    (ln.reverse.dropWhile (· = ' ')).reverse)

/-- `_check_formatting`: issues and, when any fix fired, the fixed
content. -/
def checkFormatting (rel content : List Char) : List LintIssue × Option (List Char) :=
  let lines := splitOnCh '\n' content
  let trailing := (lines.enum.filter fun il =>
    il.2.getLastD '\x00' = ' ' || il.2.getLastD '\x00' = '\t').map (fun il => il.1 + 1)
  let wsIssues := if trailing.isEmpty then ([], content, false) else
    ([{ filePath := rel, lineNum := some (trailing.headD 0)
        severity := str "info", category := str "formatting"
        message := str "Trailing whitespace on " ++ natStr trailing.length ++
          str " line(s)"
        fixAvailable := true : LintIssue }], stripTrailSpaces content, true)
  let nlIssues := if ¬ endsWithStr ['\n'] content then
      ([{ filePath := rel, lineNum := none
          severity := str "info", category := str "formatting"
          message := str "Missing final newline"
          fixAvailable := true : LintIssue }], wsIssues.2.1 ++ ['\n'], true)
    else ([], wsIssues.2.1, wsIssues.2.2)
  let hIssues := headingIssues rel content (headingScan content)
  (wsIssues.1 ++ nlIssues.1 ++ hIssues,
   if nlIssues.2.2 then some nlIssues.2.1 else none)

/-- `lint_file` on an already-read content: the issue list and — when
formatting fixes fired and `dry_run` is false — the rewritten content
(`--fix` is *not* consulted; the write is unconditional on it). -/
def lintFileContent (idx : List (List Char × List Char)) (strict dryRun : Bool)
    (absPath rel content : List Char) :
    Except (List Char) (List LintIssue × Option (List Char)) :=
  match checkFrontmatter idx strict absPath rel content with
  | .error e => .error e
  | .ok fmIssues =>
    let issues := fmIssues ++ checkWikilinksCk idx rel content ++
      checkUnlinked idx absPath rel content ++ checkTaskLists rel content
    let fmt := checkFormatting rel content
    .ok (issues ++ fmt.1, if dryRun then none else fmt.2)

/-- `lint_file` including the `open(...)` step: a file that cannot be
read contributes one error issue and no write. -/
def lintFile (idx : List (List Char × List Char)) (strict dryRun : Bool)
    (root rel : List Char) (readResult : Except (List Char) (List Char)) :
    Except (List Char) (List LintIssue × Option (List Char)) :=
  match readResult with
  | .error e => .ok
      ([{ filePath := rel, lineNum := none, severity := str "error"
          category := str "file", message := str "Cannot read file: " ++ e }], none)
  | .ok content => lintFileContent idx strict dryRun (root ++ '/' :: rel) rel content

/-- `lint_all`: every file in order; an exception in one check aborts the
whole run (nothing catches it).  Returns all issues and the corpus after
any write-backs. -/
def lintAll (strict dryRun : Bool) (root : List Char)
    (corpus : List (List Char × Except (List Char) (List Char))) :
    Except (List Char) (List LintIssue × List (List Char × Except (List Char) (List Char))) :=
  let idx := buildIndex3 ((corpus.map (·.1)).filter (endsWithStr (str ".md")))
  let files := corpus.filter (fun f => visiblePath f.1 && endsWithStr (str ".md") f.1)
  files.foldl (fun acc f =>
    match acc with
    | .error e => .error e
    | .ok (issues, done) =>
      match lintFile idx strict dryRun root f.1 f.2 with
      | .error e => .error e
      | .ok (fIssues, written) =>
        .ok (issues ++ fIssues,
             done ++ [(f.1, match written with
                            | some c => .ok c
                            | none => f.2)]))
    (.ok ([], []))

/-- `main` of `check.py`: `--dry-run` implies `--fix`, but only
`dry_run` (and `strict`) reach the linter — `args.fix` is parsed and
never used.  Exit code: 1 if any error-severity issue, else 0. -/
def checkMain (fixFlag dryRunFlag strictFlag : Bool) (root : List Char)
    (corpus : List (List Char × Except (List Char) (List Char))) :
    Except (List Char) (Nat × List (List Char × Except (List Char) (List Char))) :=
  let _fix := fixFlag || dryRunFlag
  match lintAll strictFlag dryRunFlag root corpus with
  | .error e => .error e
  | .ok (issues, corpus2) =>
      let errors := (issues.filter (fun i => i.severity == str "error")).length
      .ok (if 0 < errors then 1 else 0, corpus2)

/-! ## Claim theorems: linter error handling and CLI modes -/

instance exceptDecEq {ε α : Type} [DecidableEq ε] [DecidableEq α] :
    DecidableEq (Except ε α) := fun a b =>
  match a, b with
  | .ok x, .ok y =>
      if h : x = y then isTrue (by rw [h])
      else isFalse (fun hc => by cases hc; exact h rfl)
  | .error x, .error y =>
      if h : x = y then isTrue (by rw [h])
      else isFalse (fun hc => by cases hc; exact h rfl)
  | .ok _, .error _ => isFalse (fun hc => by cases hc)
  | .error _, .ok _ => isFalse (fun hc => by cases hc)

/-- C9 (code bug, evaluated): an unreadable file and a malformed
frontmatter do degrade to per-file issues with the rest of the corpus
still validated — but a file whose identifier text is malformed does not:
for a `TKT-` file declaring `id: x`, `_check_frontmatter` evaluates
`id_value.split('-')[1]`, and the uncaught `IndexError` aborts the whole
run before any issue (including the already-detected invalid-id error) is
reported and before any other file is checked, contradicting the claim
that only root inaccessibility is fatal. -/
theorem C9_indexerror_aborts_run :
    lintAll false false (str "/r")
        [(str "TKT-a1b2-001_x.md", Except.ok (str "---\nid: x\n---\nrest\n")),
         (str "zzz.md", Except.ok (str "hello\n"))]
      = .error (str "IndexError: list index out of range") ∧
    lintAll false false (str "/r")
        [(str "bad.md", Except.error (str "Permission denied")),
         (str "good.md", Except.ok (str "hello\n"))]
      = .ok
        ([{ filePath := str "bad.md", lineNum := none, severity := str "error"
            category := str "file"
            message := str "Cannot read file: Permission denied" }],
         [(str "bad.md", Except.error (str "Permission denied")),
          (str "good.md", Except.ok (str "hello\n"))]) ∧
    lintAll false false (str "/r")
        [(str "m.md", Except.ok (str "---\nid: x\nno close [[missing]]\n"))]
      = .ok
        ([{ filePath := str "m.md", lineNum := some 1, severity := str "error"
            category := str "frontmatter"
            message := str "Malformed frontmatter (missing closing ---)" },
          { filePath := str "m.md", lineNum := some 3, severity := str "warning"
            category := str "wikilink"
            message := str "Broken wikilink: [[missing]] - target not found" }],
         [(str "m.md", Except.ok (str "---\nid: x\nno close [[missing]]\n"))]) :=
  ⟨by decide, by decide, by decide⟩

/-- C10 (code bug, evaluated): check-only mode is *not* read-only.
`main` parses `--fix` but never passes it to `ObsidianLinter` (only
`dry_run` and `strict` are forwarded), and `lint_file` writes whatever
`_check_formatting` fixed whenever `dry_run` is false — so a plain
check run rewrites `a.md` from `x \n` to `x\n`.  The exit-code half of
the claim does hold: 0 with no error-severity issues, 1 otherwise, and
`--dry-run` really is read-only. -/
theorem C10_check_mode_writes :
    checkMain false false false (str "/r") [(str "a.md", Except.ok (str "x \n"))]
      = .ok (0, [(str "a.md", Except.ok (str "x\n"))]) ∧
    checkMain false true false (str "/r") [(str "a.md", Except.ok (str "x \n"))]
      = .ok (0, [(str "a.md", Except.ok (str "x \n"))]) ∧
    checkMain false false false (str "/r")
        [(str "m.md", Except.ok (str "---\nid: x\nno close [[missing]]\n"))]
      = .ok (1, [(str "m.md", Except.ok (str "---\nid: x\nno close [[missing]]\n"))]) :=
  ⟨by decide, by decide, by decide⟩

/-! ## Regex-substitution machinery for the fixers

`re.sub` finds non-overlapping matches left to right on the *original*
string (the scan resumes after each match; on failure the scan advances
one character) and splices the replacements in.  Matches are collected as
`(start, end, replacement)` and applied in reverse position order, which
is exactly how `fix-links.py`/`fix-all.py` apply their own replacement
lists. -/

/-- Generic `finditer`/`re.sub` scanner: `tm` yields match length and
replacement at a position. -/
def patScanGo (tm : List Char → Option (Nat × List Char)) (pos skip : Nat) :
    List Char → List (Nat × Nat × List Char)
  | [] => []
  | c :: rest =>
    match skip with
    | s + 1 => patScanGo tm (pos + 1) s rest
    | 0 =>
      match tm (c :: rest) with
      | some (n, repl) => (pos, n, repl) :: patScanGo tm (pos + 1) (n - 1) rest
      | none => patScanGo tm (pos + 1) 0 rest

/-- Insert a replacement into a start-descending list. -/
def insDesc (r : Nat × Nat × List Char) : List (Nat × Nat × List Char) →
    List (Nat × Nat × List Char)
  | [] => [r]
  | x :: xs => if x.1 ≤ r.1 then r :: x :: xs else x :: insDesc r xs

/-- Sort replacements by start position, descending
(`sorted(replacements, reverse=True)`; starts are pairwise distinct). -/
def sortDesc (rs : List (Nat × Nat × List Char)) : List (Nat × Nat × List Char) :=
  rs.foldl (fun acc r => insDesc r acc) []

/-- Apply `(start, end, replacement)` triples, highest start first. -/
def applyRepls (content : List Char) (rs : List (Nat × Nat × List Char)) : List Char :=
  rs.foldl (fun c r => c.take r.1 ++ r.2.2 ++ c.drop r.2.1) content

/-- `re.sub(pattern, …)` for a matcher `tm`. -/
def patSub (tm : List Char → Option (Nat × List Char)) (content : List Char) : List Char :=
  applyRepls content (sortDesc ((patScanGo tm 0 0 content).map
    (fun m => (m.1, m.1 + m.2.1, m.2.2))))

/-- All (possibly overlapping) occurrence offsets of a literal. -/
def subPositionsGo (sub : List Char) (pos : Nat) : List Char → List Nat
  | [] => []
  | c :: rest =>
      (if startsWithStr sub (c :: rest) then [pos] else []) ++
      subPositionsGo sub (pos + 1) rest

def subPositions (sub l : List Char) : List Nat := subPositionsGo sub 0 l

/-- `str.replace(old, new)`: every non-overlapping occurrence. -/
def replaceAllSub (old new content : List Char) : List Char :=
  patSub (fun l => if startsWithStr old l then some (old.length, new) else none) content

/-- Count occurrences of a character (for column-delimiter accounting). -/
def countCh (c : Char) (l : List Char) : Nat := (l.filter (· = c)).length

/-! ## `tools/obsidian-linter/fix-all.py` — `ObsidianFixer._fix_file` -/

/-- `_fix_formatting` of `fix-all.py`: strip trailing spaces when the
`' +$'` pattern fires anywhere, then ensure a final newline on non-empty
content. -/
def fixAllFormatting (content : List Char) : List Char :=
  let f1 := if (splitOnCh '\n' content).any (fun ln => ln.getLastD '\x00' = ' ')
    then stripTrailSpaces content else content
  if ¬ f1.isEmpty && ¬ endsWithStr ['\n'] f1 then f1 ++ ['\n'] else f1

/-- `_fix_unlinked_references` of `fix-all.py`: upgrade bare
`TKT-`/`WE-` mentions (outside wikilinks and frontmatter, not the file's
own id, target present in the index) to `[[id]]`. -/
def fixAllUnlinked (idx : List (List Char × List Char)) (absPath rel content : List Char) :
    List Char :=
  let wikiRanges := (wikilinkScan content).map (fun pg => (pg.1, pg.1 + pg.2.length + 4))
  let fmEnd := match fmFullMatch content with
    | some (_, after) => content.length - after.length
    | none => 0
  let stem := stemOf rel
  let ownTicket : Option (List Char) :=
    if startsWithStr (str "TKT-") stem then some (stem.takeWhile (· ≠ '_')) else none
  let ownWe : Option (List Char) :=
    if ¬ startsWithStr (str "TKT-") stem &&
       (endsWithStr (str "_index") stem || hasSub (str "WE-") stem) then
      match weIdSpans absPath with
      | pn :: _ => some ((absPath.drop pn.1).take pn.2)
      | [] => none
    else none
  let skippedAt := fun (pos : Nat) =>
    wikiRanges.any (fun r => r.1 ≤ pos && pos < r.2) || pos < fmEnd
  let tktRepls := (tktIdSpans content).filterMap fun pn =>
    if skippedAt pn.1 then none
    else
      let tid := (content.drop pn.1).take pn.2
      if ownTicket = some tid then none
      else if idx.any (fun kv =>
          startsWithStr tid (stemOf kv.2) || startsWithStr tid kv.1) then
        some (pn.1, pn.1 + pn.2, str "[[" ++ tid ++ str "]]")
      else none
  let weRepls := (weIdSpans content).filterMap fun pn =>
    if skippedAt pn.1 then none
    else
      let wid := (content.drop pn.1).take pn.2
      if ownWe = some wid then none
      else if idx.any (fun kv =>
          hasSub wid kv.1 || startsWithStr wid (stemOf kv.2)) then
        some (pn.1, pn.1 + pn.2, str "[[" ++ wid ++ str "]]")
      else none
  applyRepls content (sortDesc (tktRepls ++ weRepls))

/-- `_fix_file` of `fix-all.py`: formatting fixes, then unlinked-reference
upgrades on the result; the file is rewritten iff the content changed. -/
def fixAllFile (idx : List (List Char × List Char)) (absPath rel content : List Char) :
    List Char :=
  fixAllUnlinked idx absPath rel (fixAllFormatting content)

/-! ## `tools/obsidian-linter/fix-obsidian-links.py` — `ObsidianLinkFixer`

The fixer state is its three indexes: `we_index_map` (work-effort id →
Obsidian path of its index file), `ticket_map` (ticket id → Obsidian path)
and `we_tickets` (work-effort id → its ticket ids), all as built by
`_build_indexes` from the directory layout. -/

/-- A wikilink attempt whose bracket text satisfies `cond`: pattern
`\[\[…\]\]` with a condition on the (non-`]`) bracket text. -/
def wikiCondTry (cond : List Char → Bool) (repl : List Char) (l : List Char) :
    Option (Nat × List Char) :=
  match wikilinkTry l with
  | some (grp, n) => if cond grp then some (n, repl) else none
  | none => none

/-- `\[\[\[[^\]]+\]\]\]`. -/
def tripleTry (l : List Char) : Option (Nat × List Char) :=
  match l with
  | '[' :: '[' :: '[' :: rest =>
      let grp := rest.takeWhile (· ≠ ']')
      if grp.isEmpty then none
      else match rest.drop grp.length with
           | ']' :: ']' :: ']' :: _ => some (grp.length + 6, [])
           | _ => none
  | _ => none

/-- `\([^\)]+\)` continuation after a prefix match: extends `n` by a
parenthesized group, if present. -/
def parenExt (l : List Char) (n : Nat) : Option Nat :=
  match l.drop n with
  | '(' :: rest =>
      let grp := rest.takeWhile (· ≠ ')')
      if grp.isEmpty then none
      else match rest.drop grp.length with
           | ')' :: _ => some (n + grp.length + 2)
           | _ => none
  | _ => none

/-- `\[\[\[[^\]]+\]\]\]\([^\)]+\)\]\([^\)]+\)`. -/
def tripleParen2Try (l : List Char) : Option (Nat × List Char) :=
  match tripleTry l with
  | some (n, _) =>
      match parenExt l n with
      | some n2 =>
          match l.drop n2 with
          | ']' :: _ => (parenExt l (n2 + 1)).map (fun n3 => (n3, []))
          | _ => none
      | none => none
  | none => none

/-- `\[\[\[[^\]]+\]\]\]\([^\)]+\)`. -/
def tripleParen1Try (l : List Char) : Option (Nat × List Char) :=
  match tripleTry l with
  | some (n, _) => (parenExt l n).map (fun n2 => (n2, []))
  | none => none

/-- `\[\[[^\]]+\]\]\([^\)]+\)`. -/
def wikiParenTry (l : List Char) : Option (Nat × List Char) :=
  match wikilinkTry l with
  | some (_, n) => (parenExt l n).map (fun n2 => (n2, []))
  | none => none

/-- `\[ID\]\([^\)]+\)` for a fixed id. -/
def htmlIdTry (id : List Char) (l : List Char) : Option (Nat × List Char) :=
  match l with
  | '[' :: rest =>
      if startsWithStr id rest then
        match rest.drop id.length with
        | ']' :: _ => (parenExt l (id.length + 2)).map (fun n2 => (n2, []))
        | _ => none
      else none
  | _ => none

/-- `\[\[[^\]]+\|ID\]\]` for a fixed id: bracket text `A|ID`, `A`
non-empty. -/
def aliasIdCond (id grp : List Char) : Bool :=
  endsWithStr ('|' :: id) grp && id.length + 1 < grp.length

/-- The lazy group and closing group of `(.*?)(\n---\s*\n)`: inner text,
the matched closing text, and the remainder. -/
def findCloseFm3 : List Char → Option (List Char × List Char × List Char)
  | [] => none
  | c :: rest =>
      (if c = '\n' && startsWithStr (str "---") rest then
        match consumeWsNl (rest.drop 3) with
        | some after =>
            some ([], '\n' :: (str "---" ++
              (rest.drop 3).take ((rest.drop 3).length - after.length)), after)
        | none => none
      else none).orElse (fun _ =>
        (findCloseFm3 rest).map (fun p => (c :: p.1, p.2.1, p.2.2)))

/-- `re.match(r'^(---\s*\n)(.*?)(\n---\s*\n)', content, re.DOTALL)` with
all three groups: opening text, inner text, closing text, remainder. -/
def fmMatch3 (content : List Char) :
    Option (List Char × List Char × List Char × List Char) :=
  if startsWithStr (str "---") content then
    firstSome (nlIndicesDesc ((content.drop 3).takeWhile isSpaceCh)) fun i =>
      (findCloseFm3 ((content.drop 3).drop (i + 1))).map fun p =>
        (content.take (3 + i + 1), p.1, p.2.1, p.2.2)
  else none

/-- `fix_frontmatter`: inside the frontmatter block, strip
`[[target|alias]]` to the alias and `[[target]]` to the target; the rest
of the file is untouched. -/
def fixFrontmatterObs (content : List Char) : List Char :=
  match fmMatch3 content with
  | none => content
  | some (g1, inner, g3, rest) =>
      let fixed1 := patSub (fun l =>
        match wikilinkTry l with
        | some (grp, n) =>
            let parts := splitOnCh '|' grp
            if 2 ≤ parts.length then
              let lastP := parts.getLastD []
              let pre := joinCh '|' parts.dropLast
              if ¬ lastP.isEmpty && ¬ pre.isEmpty then some (n, lastP) else none
            else none
        | none => none) inner
      let fixed2 := patSub (fun l =>
        match wikilinkTry l with
        | some (grp, n) => some (n, grp)
        | none => none) fixed1
      if fixed2 ≠ inner then g1 ++ fixed2 ++ g3 ++ rest else content

/-- `fix_work_effort_links`: for each indexed work effort, rewrite the
three malformed link shapes to `[[obsidian_path|we_id]]`. -/
def fixWorkEffortLinks (weIndexMap : List (List Char × List Char)) (content : List Char) :
    List Char :=
  weIndexMap.foldl (fun c kv =>
    let weId := kv.1
    let repl := str "[[" ++ kv.2 ++ '|' :: weId ++ str "]]"
    let c := patSub (wikiCondTry (fun grp =>
      endsWithStr ('|' :: weId) grp &&
      hasSub weId (grp.take (grp.length - (weId.length + 1)))) repl) c
    let c := patSub (wikiCondTry (fun grp => endsWithStr (weId ++ str "_index") grp) repl) c
    patSub (wikiCondTry (fun grp => grp == weId) repl) c) content

/-- `fix_ticket_links`: the two malformed ticket link shapes. -/
def fixTicketLinks (ticketMap : List (List Char × List Char)) (content : List Char) :
    List Char :=
  ticketMap.foldl (fun c kv =>
    let tid := kv.1
    let repl := str "[[" ++ kv.2 ++ '|' :: tid ++ str "]]"
    let c := patSub (wikiCondTry (fun grp =>
      endsWithStr ('|' :: tid) grp &&
      hasSub tid (grp.take (grp.length - (tid.length + 1)))) repl) c
    patSub (wikiCondTry (fun grp => grp == tid) repl) c) content

/-- The `while re.search(r'\[\[\[[^\]]+\]\]\]', …)` cleanup loop,
fuel-bounded by the line length (each pass removes at least one
character when it fires). -/
def removeTriplesLoop : Nat → List Char → List Char
  | 0, l => l
  | fuel + 1, l =>
      if (patScanGo tripleTry 0 0 l).isEmpty then l
      else removeTriplesLoop fuel (patSub tripleTry l)

/-- One table row of `fix_ticket_tables`: aggressive malformed-link
cleanup, cell split, per-ticket id-cell relinking and cross-cell link
removal, then rejoin with normalized spacing. -/
def fixTableRow (tickets : List (List Char × List Char)) (line : List Char) : List Char :=
  let l := removeTriplesLoop line.length line
  let l := patSub tripleParen2Try l
  let l := patSub tripleParen1Try l
  let l := patSub wikiParenTry l
  let cells := (splitOnCh '|' l).map trimPy
  let cells := match cells with
    | [] :: t => t
    | c => c
  let cells := if cells.getLastD [' '] == ([] : List Char) then cells.dropLast else cells
  if cells.length < 2 then l
  else
    let cells := tickets.foldl (fun cells kv =>
      let tid := kv.1
      let htmlLink := '[' :: tid ++ str "](" ++ kv.2 ++ [')']
      let rowText := joinStr [' '] cells
      if ¬ hasSub tid rowText then cells
      else
        let cells := match cells with
          | idCell :: t =>
              let idCell := patSub (wikiCondTry (aliasIdCond tid) []) idCell
              let idCell := patSub (htmlIdTry tid) idCell
              let idCell := patSub tripleTry idCell
              let idCell := trimPy idCell
              (if idCell.isEmpty || idCell == tid || hasSub tid idCell then htmlLink
               else idCell) :: t
          | [] => []
        match cells with
        | h :: t => h :: t.map (fun cell =>
            trimPy (patSub (htmlIdTry tid) (patSub (wikiCondTry (aliasIdCond tid) []) cell)))
        | [] => []) cells
    str "| " ++ joinStr (str " | ") cells ++ str " |"

/-- The table line loop of `fix_ticket_tables`. -/
def fixTableLines (tickets : List (List Char × List Char)) (inTable : Bool) :
    List (List Char) → List (List Char)
  | [] => []
  | line :: rest =>
      if hasCh '|' line && hasSub (str "---") line then
        line :: fixTableLines tickets true rest
      else if inTable && ¬ (trimPy line).isEmpty && ¬ hasCh '|' line then
        line :: fixTableLines tickets false rest
      else if inTable && hasCh '|' line then
        fixTableRow tickets line :: fixTableLines tickets inTable rest
      else
        line :: fixTableLines tickets inTable rest

/-- The bullet-list rewrite of `fix_ticket_tables`:
`^(\s*[-*])\s*(TID)(\s*)$` → `\1 [[path|\2]]\3`, line by line. -/
def bulletRewrite (tid path line : List Char) : List Char :=
  let ws1 := line.takeWhile isSpaceCh
  match line.drop ws1.length with
  | d :: r =>
      if d = '-' || d = '*' then
        let ws2 := r.takeWhile isSpaceCh
        let r2 := r.drop ws2.length
        if startsWithStr tid r2 && (r2.drop tid.length).all isSpaceCh then
          ws1 ++ d :: ' ' :: (str "[[" ++ path ++ '|' :: tid ++ str "]]") ++
            r2.drop tid.length
        else line
      else line
  | [] => line

/-- `fix_ticket_tables(content, we_id)`: only the tickets of this work
effort are considered. -/
def fixTicketTables (ticketMap : List (List Char × List Char))
    (weTickets : List (List Char × List (List Char))) (weId content : List Char) :
    List Char :=
  let tids := ((weTickets.find? (fun kv => kv.1 == weId)).map (·.2)).getD []
  let tickets := tids.filterMap (fun tid =>
    (ticketMap.find? (fun kv => kv.1 == tid)).map (fun kv => (tid, kv.2)))
  if tickets.isEmpty then content
  else
    let content := joinCh '\n' (fixTableLines tickets false (splitOnCh '\n' content))
    tickets.foldl (fun c kv =>
      joinCh '\n' ((splitOnCh '\n' c).map (bulletRewrite kv.1 kv.2))) content

/-- The already-inside-a-link test of `convert_unlinked_references`: the
text before the match holds a `[[` with no later `]]`. -/
def insideOpenLink (before : List Char) : Bool :=
  match (subPositions (str "[[") before).getLast? with
  | none => false
  | some ls => ¬ (subPositions (str "]]") before).any (fun p => ls ≤ p)

/-- One `re.sub(rf'\b({id})\b', replace_unlinked, body)` pass of
`convert_unlinked_references`. -/
def convertSub (id path body : List Char) : List Char :=
  let spans := reScanGo (fun l =>
    if startsWithStr id l && endBoundary (l.drop id.length) then some id.length
    else none) none 0 0 body
  applyRepls body (sortDesc (spans.filterMap fun pn =>
    if insideOpenLink (body.take pn.1) then none
    else some (pn.1, pn.1 + pn.2, str "[[" ++ path ++ '|' :: id ++ str "]]")))

/-- `convert_unlinked_references`: split off the frontmatter, upgrade
bare work-effort then ticket mentions in the body. -/
def convertUnlinkedRefs (weIndexMap ticketMap : List (List Char × List Char))
    (content : List Char) : List Char :=
  let bodyStart := match fmFullMatch content with
    | some (_, after) => content.length - after.length
    | none => 0
  let body := content.drop bodyStart
  let fm := content.take bodyStart
  let body := weIndexMap.foldl (fun b kv => convertSub kv.1 kv.2 b) body
  let body := ticketMap.foldl (fun b kv => convertSub kv.1 kv.2 b) body
  fm ++ body

/-- `(WE-\d{6}-[a-z0-9]{4})` as a prefix (no anchors, no boundary). -/
def weIdPrefixTry (l : List Char) : Option (List Char) :=
  match dropLit (str "WE-") l with
  | none => none
  | some r1 =>
    match takeCount isDigitCh 6 r1 with
    | none => none
    | some (d6, r2) =>
      match dropLit ['-'] r2 with
      | none => none
      | some r3 =>
        match takeCount isLowerAlnum 4 r3 with
        | none => none
        | some (s4, _) => some (str "WE-" ++ d6 ++ '-' :: s4)

/-- `re.search(r'parent:\s*(WE-\d{6}-[a-z0-9]{4})', frontmatter)`. -/
def parentSearchGo : List Char → Option (List Char)
  | [] => none
  | c :: rest =>
      (if c = 'p' && startsWithStr (str "arent:") rest then
        weIdPrefixTry ((rest.drop 6).dropWhile isSpaceCh)
      else none).orElse (fun _ => parentSearchGo rest)

/-- `ensure_ticket_parent_links`. -/
def ensureTicketParentLinks (weIndexMap : List (List Char × List Char))
    (parentWeId content : List Char) : List Char :=
  match (weIndexMap.find? (fun kv => kv.1 == parentWeId)).map (·.2) with
  | none => content
  | some wePath =>
    if ¬ hasSub (str "[[" ++ wePath) content &&
       ¬ hasSub (str "**Parent Work Effort**") content then
      let link := str "**Parent Work Effort**: [[" ++ wePath ++ '|' :: parentWeId ++ str "]]"
      if hasSub (str "## Description") content then
        replaceAllSub (str "## Description") (link ++ str "\n\n## Description") content
      else
        match (subPositionsGo (str "---") 3 (content.drop 3)).head? with
        | some fmEnd =>
            if 0 < fmEnd then
              match (subPositionsGo ['\n'] fmEnd (content.drop fmEnd)).head? with
              | some nlPos =>
                  let insertPos := nlPos + 1
                  content.take insertPos ++ ('\n' :: link ++ ['\n']) ++ content.drop insertPos
              | none => content
            else content
        | none => content
    else content

/-- `TKT-(\d{6})-(\d{3})_(.+)\.md` on a ticket file name (`re.match`,
description non-empty, name ending in `.md`). -/
def ticketFileNameTry (fn : List Char) : Option (List Char) :=
  match dropLit (str "TKT-") fn with
  | none => none
  | some r1 =>
    match takeCount isDigitCh 6 r1 with
    | none => none
    | some (d6, r2) =>
      match dropLit ['-'] r2 with
      | none => none
      | some r3 =>
        match takeCount isDigitCh 3 r3 with
        | none => none
        | some (d3, r4) =>
          match dropLit ['_'] r4 with
          | none => none
          | some r5 =>
            if 4 ≤ r5.length && endsWithStr (str ".md") r5 then
              some (str "TKT-" ++ d6 ++ '-' :: d3)
            else none

/-- `(WE-\d{6}-[a-z0-9]{4})_index\.md` on an index file name
(`re.match`). -/
def weIndexNameTry (fn : List Char) : Option (List Char) :=
  match weIdPrefixTry fn with
  | none => none
  | some weId =>
      if startsWithStr (str "_index.md") (fn.drop weId.length) then some weId else none

/-- `ObsidianLinkFixer.fix_file` on one file, as a content transform:
frontmatter cleanup, work-effort and ticket link repair, table fixing for
index files, parent back-link for tickets, then unlinked-reference
conversion. -/
def fixFileObs (weIndexMap ticketMap : List (List Char × List Char))
    (weTickets : List (List Char × List (List Char))) (fileName content : List Char) :
    List Char :=
  let isIndex := endsWithStr (str "_index.md") fileName && startsWithStr (str "WE-") fileName
  let isTicket := startsWithStr (str "TKT-") fileName
  let weId := if isIndex then weIndexNameTry fileName else none
  let ticketParent : Option (List Char) :=
    if isTicket && (ticketFileNameTry fileName).isSome then
      match fmFullMatch content with
      | some (inner, _) => parentSearchGo inner
      | none => none
    else none
  let c := fixFrontmatterObs content
  let c := fixWorkEffortLinks weIndexMap c
  let c := fixTicketLinks ticketMap c
  let c := match weId with
    | some w => fixTicketTables ticketMap weTickets w c
    | none => c
  let c := match ticketParent with
    | some p => ensureTicketParentLinks weIndexMap p c
    | none => c
  convertUnlinkedRefs weIndexMap ticketMap c

/-! ## Claim theorems: auto-fixer table handling and idempotence -/

/-- `we_index_map` as `_build_indexes` computes it for a corpus holding
one work effort `WE-260101-abcd_d` with index `WE-260101-abcd_index.md`
and one ticket `tickets/TKT-260101-001_f.md`. -/
def obsWeMap : List (List Char × List Char) :=
  [(str "WE-260101-abcd", str "_work_efforts/WE-260101-abcd_d/WE-260101-abcd_index")]

/-- `ticket_map` for the same corpus. -/
def obsTicketMap : List (List Char × List Char) :=
  [(str "TKT-260101-001", str "_work_efforts/WE-260101-abcd_d/tickets/TKT-260101-001_f")]

/-- `we_tickets` for the same corpus. -/
def obsWeTickets : List (List Char × List (List Char)) :=
  [(str "WE-260101-abcd", [str "TKT-260101-001"])]

/-- The work-effort index file before fixing: a ticket table row and a
prose mention of the same ticket. -/
def obsIndexContent : List Char :=
  str "---\nid: WE-260101-abcd\n---\n| ID | D |\n| --- | --- |\n| TKT-260101-001 | Fix login |\n\nSee TKT-260101-001 for details\n"

/-- C6 (code bug, evaluated): one `fix_file` pass over the index file
converts the prose mention into a navigable wikilink, but does **not**
leave the table row's `|`-count unchanged: `fix_ticket_tables` first
installs the bracket-parenthesis form `[TKT-260101-001](path)` precisely
to avoid pipe conflicts, and `convert_unlinked_references` — which runs
later in the same pass and only recognizes `[[`-style links — then
rewrites the bare ticket id inside that display text into a `[[path|id]]`
wikilink whose alias `|` lands inside the cell, taking the row from 3
pipes (2 columns) to 4 (a phantom column). -/
theorem C6_table_pipe_added :
    fixFileObs obsWeMap obsTicketMap obsWeTickets (str "WE-260101-abcd_index.md")
        obsIndexContent
      = str "---\nid: WE-260101-abcd\n---\n| ID | D |\n| --- | --- |\n| [[[_work_efforts/WE-260101-abcd_d/tickets/TKT-260101-001_f|TKT-260101-001]]](_work_efforts/WE-260101-abcd_d/tickets/TKT-260101-001_f) | Fix login |\n\nSee [[_work_efforts/WE-260101-abcd_d/tickets/TKT-260101-001_f|TKT-260101-001]] for details\n" ∧
    countCh '|' (str "| TKT-260101-001 | Fix login |") = 3 ∧
    countCh '|'
      (str "| [[[_work_efforts/WE-260101-abcd_d/tickets/TKT-260101-001_f|TKT-260101-001]]](_work_efforts/WE-260101-abcd_d/tickets/TKT-260101-001_f) | Fix login |")
      = 4 ∧
    hasSub
      (str "See [[_work_efforts/WE-260101-abcd_d/tickets/TKT-260101-001_f|TKT-260101-001]] for details")
      (fixFileObs obsWeMap obsTicketMap obsWeTickets (str "WE-260101-abcd_index.md")
        obsIndexContent) = true :=
  ⟨by set_option maxRecDepth 10000 in decide, by decide, by decide,
   by set_option maxRecDepth 10000 in decide⟩

/-- C1 (counterexample): the second fixer run is not change-free.
`fix_frontmatter` strips one level of wikilink brackets per pass: on a
file whose frontmatter value nests brackets, the first `fix_file` pass
rewrites `rel: [[a[[b]]c]]` to `rel: a[[bc]]`, and the second pass —
which the claim says must produce no file changes — rewrites it again to
`rel: abc`. -/
theorem C1_counterexample :
    fixFileObs [] [] [] (str "notes2.md") (str "---\nrel: [[a[[b]]c]]\n---\nBody\n")
      = str "---\nrel: a[[bc]]\n---\nBody\n" ∧
    fixFileObs [] [] [] (str "notes2.md") (str "---\nrel: a[[bc]]\n---\nBody\n")
      = str "---\nrel: abc\n---\nBody\n" ∧
    str "---\nrel: abc\n---\nBody\n" ≠ str "---\nrel: a[[bc]]\n---\nBody\n" :=
  ⟨by decide, by decide, by decide⟩

/-- C1 (amended): the plain formatting-and-unlinked-reference fixer of
`fix-all.py` does reach a fixed point after one pass on a corpus of
well-formed mentions — the first pass strips the trailing space, adds the
final newline and upgrades the bare ticket mention, and a second pass
changes nothing (the upgraded mention now sits inside a wikilink and is
skipped) — but the comprehensive `fix-obsidian-links.py` pass is not
idempotent in general (see the counterexample: nested wikilink markup in
a frontmatter value loses one bracket level per run). -/
theorem C1_fixall_second_pass_noop :
    fixAllFile (buildIndex3 [str "TKT-a1b2-001_fix.md", str "notes.md"])
        (str "/r/notes.md") (str "notes.md")
        (str "See TKT-a1b2-001 for details \nmore")
      = str "See [[TKT-a1b2-001]] for details\nmore\n" ∧
    fixAllFile (buildIndex3 [str "TKT-a1b2-001_fix.md", str "notes.md"])
        (str "/r/notes.md") (str "notes.md")
        (str "See [[TKT-a1b2-001]] for details\nmore\n")
      = str "See [[TKT-a1b2-001]] for details\nmore\n" ∧
    str "See [[TKT-a1b2-001]] for details\nmore\n"
      ≠ str "See TKT-a1b2-001 for details \nmore" ∧
    fixAllFile (buildIndex3 [str "TKT-a1b2-001_fix.md", str "notes.md"])
        (str "/r/TKT-a1b2-001_fix.md") (str "TKT-a1b2-001_fix.md")
        (str "---\nid: TKT-a1b2-001\n---\nBody\n")
      = str "---\nid: TKT-a1b2-001\n---\nBody\n" :=
  ⟨by decide, by decide, by decide, by decide⟩

end Pyrite
